import Mathlib

/-!
Verification development for the roborock payload codec
(`roborock/containers.py`).

The development shallowly embeds:
* the name transcoder `camelize` / `decamelize` and the recursive key
  normaliser `decamelize_obj`;
* the generic `RoborockBase.from_dict` / `as_dict` codec, instantiated at
  the entities the claims are about (`Status`, `Consumable`,
  `NetworkInfo`, `MultiMapsList` and its nested records);
* the capability decoder `build_device_features`, including the exact
  semantics of the Python expression `int(new_feature_set_int / (2**32))`
  (binary64 float division, i.e. rounding the integer to 53 significant
  bits, ties to even, before shifting);
* the derived-field computations (`model_post_init` hooks and the dead
  `__post_init__` of `Consumable`).

Python `dict` payloads are embedded as association lists over a JSON-like
value type `JValue`; machine-level floats appearing as derived
square-meter areas are modelled as exact rationals rounded half-to-even
(the claims never depend on binary64 bit patterns of these areas).
Pydantic v2 validation semantics relevant here: `model_validate` coerces
each declared field (unknown keys are ignored under the default config),
raises `ValidationError` (a `ValueError`) when a value cannot be coerced,
and then runs `model_post_init`; a plain `__post_init__` method is not a
pydantic hook on `BaseModel` subclasses and is never invoked.
-/

/-- JSON-like value universe for wire payloads (the shape produced by
parsing a JSON body): null, booleans, integers, floats (as rationals),
strings, arrays, objects (association lists, as Python dicts). -/
inductive JValue where
  | jNull : JValue
  | jBool : Bool → JValue
  | jInt : Int → JValue
  | jRat : Rat → JValue
  | jStr : String → JValue
  | jList : List JValue → JValue
  | jObj : List (String × JValue) → JValue

/-- Python `str.lower` on one ASCII character. -/
def pyLowerChar (c : Char) : Char :=
  if c.isUpper then c.toLower else c

/-- Python `str.upper` on one ASCII character. -/
def pyUpperChar (c : Char) : Char :=
  if c.isLower then c.toUpper else c

/-- Helper for `decamelize`: `re.sub("([A-Z]+)", "_\\1", s).lower()`.
The Boolean argument records whether the previous character was
uppercase, so that one underscore is inserted per maximal uppercase run. -/
def decamAux : Bool → List Char → List Char
  | _, [] => []
  | prevUp, c :: cs =>
      if c.isUpper then
        (if prevUp then [pyLowerChar c] else ['_', pyLowerChar c]) ++ decamAux true cs
      else pyLowerChar c :: decamAux false cs

/-- The `decamelize(s)` of `containers.py`: insert an underscore before every
maximal run of uppercase characters, then lower-case everything. -/
def decamelize (s : String) : String := ⟨decamAux false s.data⟩

/-- Python `s.split("_")` on the character list. -/
def splitUnderscore : List Char → List (List Char)
  | [] => [[]]
  | c :: cs =>
      if c = '_' then [] :: splitUnderscore cs
      else
        match splitUnderscore cs with
        | h :: t => (c :: h) :: t
        | [] => [[c]]

/-- Helper for Python `str.title`: capitalise an alphabetic character that
follows a non-alphabetic one (or the start), lower-case other alphabetic
characters. The Boolean records whether the previous character was
alphabetic. -/
def titleAux : Bool → List Char → List Char
  | _, [] => []
  | prevAlpha, c :: cs =>
      (if c.isAlpha then (if prevAlpha then pyLowerChar c else pyUpperChar c) else c)
        :: titleAux c.isAlpha cs

/-- Python `str.title` on ASCII text. -/
def pyTitle (cs : List Char) : List Char := titleAux false cs

/-- Python `str.lower` on ASCII text. -/
def pyLower (cs : List Char) : List Char := cs.map pyLowerChar

/-- The `camelize(s)` of `containers.py`: split the domain name on
underscores; a single segment is returned unchanged; otherwise the first
segment is lower-cased and every later segment is title-cased, and all
are concatenated. -/
def camelize (s : String) : String :=
  match splitUnderscore s.data with
  | [] => s
  | first :: others =>
      if others.isEmpty then s
      else ⟨pyLower first ++ (others.map pyTitle).flatten⟩

/-- Key transform used by `decamelize_obj`: keys on the ignore list are
kept verbatim, all other keys are decamelized. -/
def transcodeKey (ign : List String) (k : String) : String :=
  if ign.contains k then k else decamelize k

mutual

/-- The `decamelize_obj` of `containers.py` (the second definition at line
122, which shadows the first): recursively decamelize the keys of every
nested mapping, leaving keys on the ignore list untouched; scalar values
pass through. The `ModelPrivateAttr` unwrap in the source (extracting
`.default`) yields exactly the declared `_ignore_keys` list, which is
what `ign` holds here. The `isinstance(d, RoborockBase)` branch
(re-encoding a domain object handed to `from_dict`) is outside the
`JValue` payload universe and is not needed by any claim. -/
def decamVal (ign : List String) : JValue → JValue
  | .jList l => .jList (decamList ign l)
  | .jObj l => .jObj (decamObj ign l)
  | v => v

/-- Element-wise `decamelize_obj` over a JSON array (scalars unchanged). -/
def decamList (ign : List String) : List JValue → List JValue
  | [] => []
  | v :: vs => decamVal ign v :: decamList ign vs

/-- The `decamelize_obj` over the entries of a JSON object. -/
def decamObj (ign : List String) : List (String × JValue) → List (String × JValue)
  | [] => []
  | (k, v) :: kvs => (transcodeKey ign k, decamVal ign v) :: decamObj ign kvs

end

/-- Lookup in an association list with Python-dict semantics: when two
entries share a key (possible after key transcoding), the later one wins,
as in a Python dict comprehension. -/
def getVal : List (String × JValue) → String → Option JValue
  | [], _ => none
  | (a, b) :: l, k =>
      match getVal l k with
      | some v => some v
      | none => if a = k then some b else none

/-- Materialise the non-null fields of a dumped model: an entry whose
value is absent (`none`, i.e. Python `None` under `exclude_none=True`) is
omitted from the emitted mapping. -/
def segsToDict : List (String × Option JValue) → List (String × JValue)
  | [] => []
  | (_, none) :: r => segsToDict r
  | (k, some v) :: r => (k, v) :: segsToDict r

/-- Field lookup over the pre-materialised segments: the value attached
to the first entry carrying the key (keys are distinct in every dump). -/
def lookupSeg (segs : List (String × Option JValue)) (k : String) : Option JValue :=
  match segs.find? (fun p => p.1 == k) with
  | some p => p.2
  | none => none

/-- Key/value transform applied by `decamelize_obj` to a dumped segment
list. -/
def decamSegs (ign : List String) (segs : List (String × Option JValue)) :
    List (String × Option JValue) :=
  segs.map (fun p => (transcodeKey ign p.1, p.2.map (decamVal ign)))

theorem getVal_nil (k : String) : getVal [] k = none := rfl

theorem getVal_cons_ne {a k : String} (b : JValue) (l : List (String × JValue))
    (h : a ≠ k) : getVal ((a, b) :: l) k = getVal l k := by
  simp only [getVal]
  cases hv : getVal l k with
  | none => simp [h]
  | some v => simp

theorem getVal_cons_self {l : List (String × JValue)} {k : String} (b : JValue)
    (h : getVal l k = none) : getVal ((k, b) :: l) k = some b := by
  simp only [getVal]
  rw [h]
  simp

theorem getVal_not_mem {l : List (String × JValue)} {k : String}
    (h : ∀ p ∈ l, p.1 ≠ k) : getVal l k = none := by
  induction l with
  | nil => rfl
  | cons p r ih =>
      obtain ⟨a, b⟩ := p
      rw [getVal_cons_ne b r (h (a, b) (by simp))]
      exact ih (fun q hq => h q (by simp [hq]))

/-- Keys of a materialised dump are among the declared segment keys. -/
theorem segsToDict_keys_sub (segs : List (String × Option JValue)) :
    ∀ k ∈ (segsToDict segs).map Prod.fst, k ∈ segs.map Prod.fst := by
  induction segs with
  | nil => simp [segsToDict]
  | cons p r ih =>
      obtain ⟨a, ov⟩ := p
      cases ov with
      | none =>
          intro k hk
          simp only [segsToDict] at hk
          simp [ih k hk]
      | some v =>
          intro k hk
          simp only [segsToDict, List.map_cons, List.mem_cons] at hk
          rcases hk with hk | hk
          · simp [hk]
          · simp [ih k hk]

/-- Looking a key up in the materialised dump agrees with looking it up in
the segment list, provided the dump's keys are distinct. -/
theorem getVal_segsToDict (segs : List (String × Option JValue)) (k : String)
    (hnd : (segs.map Prod.fst).Nodup) :
    getVal (segsToDict segs) k = lookupSeg segs k := by
  induction segs with
  | nil => rfl
  | cons p r ih =>
      obtain ⟨a, ov⟩ := p
      have hr : (r.map Prod.fst).Nodup := by
        simp only [List.map_cons, List.nodup_cons] at hnd
        exact hnd.2
      have ha : a ∉ r.map Prod.fst := by
        simp only [List.map_cons, List.nodup_cons] at hnd
        exact hnd.1
      by_cases hk : a = k
      · subst hk
        have hnone : getVal (segsToDict r) a = none := by
          apply getVal_not_mem
          intro q hq hqa
          apply ha
          rw [← hqa]
          exact segsToDict_keys_sub r q.1 (List.mem_map_of_mem Prod.fst hq)
        cases ov with
        | none =>
            have hrhs : lookupSeg ((a, none) :: r) a = none := by
              simp only [lookupSeg]
              rw [List.find?_cons_of_pos _ (by simp)]
            rw [show segsToDict ((a, none) :: r) = segsToDict r from rfl, hnone, hrhs]
        | some v =>
            have hrhs : lookupSeg ((a, some v) :: r) a = some v := by
              simp only [lookupSeg]
              rw [List.find?_cons_of_pos _ (by simp)]
            rw [show segsToDict ((a, some v) :: r) = (a, v) :: segsToDict r from rfl,
              getVal_cons_self v hnone, hrhs]
      · have hfind : lookupSeg ((a, ov) :: r) k = lookupSeg r k := by
          simp only [lookupSeg]
          rw [List.find?_cons_of_neg _ (by simp [hk])]
        rw [hfind]
        cases ov with
        | none => exact ih hr
        | some v =>
            rw [show segsToDict ((a, some v) :: r) = (a, v) :: segsToDict r from rfl,
              getVal_cons_ne v (segsToDict r) hk]
            exact ih hr

/-- The `decamelize_obj` commutes with dump materialisation. -/
theorem decamObj_segsToDict (ign : List String) (segs : List (String × Option JValue)) :
    decamObj ign (segsToDict segs) = segsToDict (decamSegs ign segs) := by
  induction segs with
  | nil => rfl
  | cons p r ih =>
      obtain ⟨a, ov⟩ := p
      cases ov with
      | none => simpa [segsToDict, decamSegs] using ih
      | some v => simp [segsToDict, decamSegs, decamObj, ih]

/-- Scalars are unchanged by `decamelize_obj`, whatever the ignore list. -/
theorem decamVal_scalar_null (ign : List String) : decamVal ign .jNull = .jNull := by
  simp [decamVal]

theorem decamVal_scalar_int (ign : List String) (n : Int) :
    decamVal ign (.jInt n) = .jInt n := by
  simp [decamVal]

theorem decamVal_scalar_rat (ign : List String) (q : Rat) :
    decamVal ign (.jRat q) = .jRat q := by
  simp [decamVal]

theorem decamVal_scalar_str (ign : List String) (s : String) :
    decamVal ign (.jStr s) = .jStr s := by
  simp [decamVal]

theorem decamVal_scalar_bool (ign : List String) (b : Bool) :
    decamVal ign (.jBool b) = .jBool b := by
  simp [decamVal]

theorem decamList_int_map (ign : List String) (l : List Int) :
    decamList ign (l.map JValue.jInt) = l.map JValue.jInt := by
  induction l with
  | nil => simp [decamList]
  | cons x xs ih => simp [decamList, decamVal, ih]

theorem decamList_str_map (ign : List String) (l : List String) :
    decamList ign (l.map JValue.jStr) = l.map JValue.jStr := by
  induction l with
  | nil => simp [decamList]
  | cons x xs ih => simp [decamList, decamVal, ih]

/-- Python exception values observable from the codec: a pydantic
`ValidationError` (a `ValueError`), or a `RoborockException`, optionally
raised `from` an underlying cause (`raise ... from err`). -/
inductive PyErr where
  | validationError : String → PyErr
  | roborockError : String → Option PyErr → PyErr

/-- Error-propagating sequencing of validation steps. Pydantic collects
all field errors before raising one `ValidationError`; since every claim
only observes whether validation raised (and what wraps the error), the
short-circuiting `Except` sequencing is an adequate embedding. -/
def ebind {α β : Type} (x : Except String α) (f : α → Except String β) : Except String β :=
  match x with
  | .error e => .error e
  | .ok a => f a

theorem ebind_ok {α β : Type} (a : α) (f : α → Except String β) :
    ebind (.ok a) f = f a := rfl

theorem ebind_ok_dest {α β : Type} {x : Except String α} {f : α → Except String β}
    {b : β} (h : ebind x f = .ok b) : ∃ a, x = .ok a ∧ f a = .ok b := by
  cases x with
  | error e => simp [ebind] at h
  | ok a => exact ⟨a, rfl, h⟩

/-- Coercion of an optional `int` field (`int | None`): a missing key or
an explicit null yields `None`; an integer passes through; any other
value is a validation failure (§4.2: primitive passthrough, coercion
failure raises a decode error). -/
def coerceOptInt : Option JValue → Except String (Option Int)
  | none => .ok none
  | some .jNull => .ok none
  | some (.jInt n) => .ok (some n)
  | some _ => .error ("value is not a valid integer")

/-- Coercion of an optional `float` field (`float | None`); an integer is
accepted for a float field. -/
def coerceOptRat : Option JValue → Except String (Option Rat)
  | none => .ok none
  | some .jNull => .ok none
  | some (.jRat q) => .ok (some q)
  | some (.jInt n) => .ok (some (n : Rat))
  | some _ => .error ("value is not a valid number")

/-- Coercion of an optional `str` field (`str | None`). -/
def coerceOptStr : Option JValue → Except String (Option String)
  | none => .ok none
  | some .jNull => .ok none
  | some (.jStr s) => .ok (some s)
  | some _ => .error ("value is not a valid string")

/-- Coercion of a required `int` field. -/
def coerceReqInt : Option JValue → Except String Int
  | some (.jInt n) => .ok n
  | some _ => .error ("value is not a valid integer")
  | none => .error ("field required")

/-- Coercion of a required `str` field. -/
def coerceReqStr : Option JValue → Except String String
  | some (.jStr s) => .ok s
  | some _ => .error ("value is not a valid string")
  | none => .error ("field required")

/-- Coercion of an `Any | None` field: pure passthrough, with Python
`None` mapped to the absent value. -/
def coerceOptAny : Option JValue → Except String (Option JValue)
  | none => .ok none
  | some .jNull => .ok none
  | some v => .ok (some v)

/-- Element-wise coercion of a list of integers. -/
def coerceIntList : List JValue → Except String (List Int)
  | [] => .ok []
  | .jInt n :: r => ebind (coerceIntList r) (fun t => .ok (n :: t))
  | _ :: _ => .error ("value is not a valid integer")

/-- Coercion of a `list[int] | None` field. -/
def coerceOptListInt : Option JValue → Except String (Option (List Int))
  | none => .ok none
  | some .jNull => .ok none
  | some (.jList l) => ebind (coerceIntList l) (fun t => .ok (some t))
  | some _ => .error ("value is not a valid list")

/-- Element-wise coercion of a list of strings. -/
def coerceStrList : List JValue → Except String (List String)
  | [] => .ok []
  | .jStr s :: r => ebind (coerceStrList r) (fun t => .ok (s :: t))
  | _ :: _ => .error ("value is not a valid string")

/-- Coercion of a `list[str]` field with `default_factory=list`: a
missing key yields the empty list; an explicit null for the non-optional
list is a validation failure. -/
def coerceListStrD : Option JValue → Except String (List String)
  | none => .ok []
  | some (.jList l) => coerceStrList l
  | some _ => .error ("value is not a valid list")

/-- Modelled from the spec: the per-device-family enumeration tables
(`roborock/code_mappings.py` is not under `src/`). Each table is an
external bidirectional name ↔ integer-code registry (§6); decoding an
enum field fails when the code is not registered for the field's table
(§3, §7 DecodeError). Entries are representative; no claim depends on the
particular names or codes, only on membership or its absence. -/
def fanPowerTable : List (String × Int) :=
  [("quiet", 101), ("balanced", 102), ("turbo", 103), ("max", 104)]

/-- Modelled from the spec: state-code table (see `fanPowerTable`). -/
def stateTable : List (String × Int) :=
  [("starting", 1), ("cleaning", 5), ("returning_home", 6), ("charging", 8)]

/-- Modelled from the spec: error-code table (see `fanPowerTable`). -/
def errorCodeTable : List (String × Int) :=
  [("none", 0), ("lidar_blocked", 1), ("bumper_stuck", 2)]

/-- Modelled from the spec: in-cleaning-code table (see `fanPowerTable`). -/
def inCleaningTable : List (String × Int) :=
  [("complete", 0), ("global_clean", 1), ("zoned_clean", 2)]

/-- Modelled from the spec: mop-intensity-code table (see `fanPowerTable`). -/
def mopIntensityTable : List (String × Int) :=
  [("off", 200), ("mild", 201), ("moderate", 202), ("intense", 203)]

/-- Modelled from the spec: dock-type-code table (see `fanPowerTable`). -/
def dockTypeTable : List (String × Int) :=
  [("no_dock", 0), ("auto_empty_dock", 1), ("empty_wash_fill_dock", 3)]

/-- Modelled from the spec: mop-mode-code table (see `fanPowerTable`). -/
def mopModeTable : List (String × Int) :=
  [("standard", 300), ("deep", 301), ("deep_plus", 303)]

/-- Modelled from the spec: dock-error-code table (see `fanPowerTable`). -/
def dockErrorTable : List (String × Int) :=
  [("ok", 0), ("duct_blockage", 34), ("water_empty", 38)]

/-- The integer codes registered in a table. -/
def tableCodes (tbl : List (String × Int)) : List Int := tbl.map Prod.snd

/-- The `.name` of the enum member registered for a code (the name part of
the table entry carrying the code). -/
def enumMemberName (tbl : List (String × Int)) (c : Int) : String :=
  match tbl.find? (fun p => p.2 == c) with
  | some p => p.1
  | none => ""

/-- The `.keys()` of an enum table: the ordered symbolic option names. -/
def enumKeys (tbl : List (String × Int)) : List String := tbl.map Prod.fst

/-- The `.as_dict().get(name)` on an enum table: the integer code registered
for a symbolic name, or no value for an unregistered name. -/
def enumAsDictGet (tbl : List (String × Int)) (name : String) : Option Int :=
  match tbl.find? (fun p => p.1 == name) with
  | some p => some p.2
  | none => none

/-- Coercion of an optional enum field: the integer code must be
registered in the field's table, otherwise validation fails. Modelled
from the spec for the table side (§3 Enum Field: "decode fails if the
code is unregistered for that table"). -/
def coerceOptEnum (tbl : List (String × Int)) : Option JValue → Except String (Option Int)
  | none => .ok none
  | some .jNull => .ok none
  | some (.jInt c) =>
      if (tableCodes tbl).contains c then .ok (some c)
      else .error ("value is not a registered enum code")
  | some _ => .error ("value is not a registered enum code")

/-- Modelled from the spec: replacement-threshold constants
(`roborock/const.py` is not under `src/`); external configuration values,
one per consumable counter (§6). The concrete magnitudes are
representative; no claim depends on them. -/
def MAIN_BRUSH_REPLACE_TIME : Int := 1080000

/-- Modelled from the spec: see `MAIN_BRUSH_REPLACE_TIME`. -/
def SIDE_BRUSH_REPLACE_TIME : Int := 720000

/-- Modelled from the spec: see `MAIN_BRUSH_REPLACE_TIME`. -/
def FILTER_REPLACE_TIME : Int := 540000

/-- Modelled from the spec: see `MAIN_BRUSH_REPLACE_TIME`. -/
def SENSOR_DIRTY_REPLACE_TIME : Int := 108000

/-- Modelled from the spec: see `MAIN_BRUSH_REPLACE_TIME`. -/
def STRAINER_REPLACE_TIME : Int := 5400000

/-- Modelled from the spec: see `MAIN_BRUSH_REPLACE_TIME`. -/
def DUST_COLLECTION_REPLACE_TIME : Int := 216000

/-- Modelled from the spec: see `MAIN_BRUSH_REPLACE_TIME`. -/
def CLEANING_BRUSH_REPLACE_TIME : Int := 1080000

/-- Modelled from the spec: see `MAIN_BRUSH_REPLACE_TIME`. -/
def MOP_ROLLER_REPLACE_TIME : Int := 3240000

/-- Nearest-integer division with ties to even (`b > 0`), used to model
Python `round(x, 1)` on the exact rational value. -/
def roundHalfEvenDiv (a b : Int) : Int :=
  let q := Int.fdiv a b
  let r := a - q * b
  if 2 * r < b then q
  else if 2 * r > b then q + 1
  else if q % 2 = 0 then q else q + 1

/-- The `round(area / 1000000, 1)` of the derived square-meter fields,
modelled as exact rational arithmetic rounded half-to-even to one
decimal. (Python computes this through binary64 floats; no claim depends
on float bit patterns of these areas, only on the value being recomputed
deterministically from its source field.) -/
def roundArea (n : Int) : Rat := (roundHalfEvenDiv (n * 10) 1000000 : Int) / 10

/-- Fuel-bounded binary length; the fuel only bounds the recursion depth
(the number of bits), so `bitLen n := bitLenF n n` is exact. -/
def bitLenF : Nat → Nat → Nat
  | 0, _ => 0
  | f + 1, n => if n = 0 then 0 else bitLenF f (n / 2) + 1

/-- Number of binary digits of `n` (0 for 0). -/
def bitLen (n : Nat) : Nat := bitLenF n n

/-- Round a natural number to 53 significant binary digits, ties to even:
the value of the IEEE-754 binary64 float nearest to `n`. Python's true
division `n / (2**32)` of non-negative ints returns the correctly rounded
binary64 of the quotient; since `2**32` is a power of two, that equals
`roundNearest53 n / 2**32` exactly (scaling by a power of two is exact,
and no overflow occurs for `n < 2**1056`, far beyond every input
considered here). -/
def roundNearest53 (n : Nat) : Nat :=
  if n < 2 ^ 53 then n
  else
    let k := bitLen n - 53
    let q := n / 2 ^ k
    let r := n % 2 ^ k
    if 2 * r < 2 ^ k then q * 2 ^ k
    else if 2 * r > 2 ^ k then (q + 1) * 2 ^ k
    else (if q % 2 = 0 then q else q + 1) * 2 ^ k

/-- The `int(n / (2**32))` of `build_device_features`: Python float division
of the parsed integer by `2**32`, truncated back to an integer. The float
rounding happens before the shift, so this differs from the exact integer
quotient once `n` exceeds 53 bits. -/
def pyIntDivPow32 (n : Nat) : Nat := roundNearest53 n / 2 ^ 32

/-- Python `int(s)` on a string of decimal digits. -/
def parseDecStr (s : String) : Nat :=
  s.data.foldl (fun a c => 10 * a + (c.toNat - 48)) 0

/-- Hexadecimal digit value, as accepted by Python `int(_, 16)`. -/
def hexDigitVal (c : Char) : Nat :=
  if c.isDigit then c.toNat - 48
  else if 'a' ≤ c ∧ c ≤ 'f' then c.toNat - 87
  else if 'A' ≤ c ∧ c ≤ 'F' then c.toNat - 55
  else 0

/-- Python `int("0x" + s, 16)`. -/
def parseHexStr (s : String) : Nat :=
  s.data.foldl (fun a c => 16 * a + hexDigitVal c) 0

/-- Python `s[-8:]`: the last eight characters (the whole string when it
is shorter). -/
def lastEight (s : String) : String := ⟨s.data.drop (s.data.length - 8)⟩

/-- Test that `s` is a non-empty string of decimal digits (the only inputs Python
`int(s)` accepts among the strings the claims quantify over). -/
def pyDigits (s : String) : Bool :=
  decide (s.data ≠ []) && s.data.all Char.isDigit

/-- The ~50 capability flags of `DeviceFeatures` (containers.py lines
269–326, field order preserved). -/
structure DeviceFeatures where
  map_carpet_add_supported : Bool
  show_clean_finish_reason_supported : Bool
  resegment_supported : Bool
  video_monitor_supported : Bool
  any_state_transit_goto_supported : Bool
  fw_filter_obstacle_supported : Bool
  video_setting_supported : Bool
  ignore_unknown_map_object_supported : Bool
  set_child_supported : Bool
  carpet_supported : Bool
  mop_path_supported : Bool
  multi_map_segment_timer_supported : Bool
  custom_water_box_distance_supported : Bool
  wash_then_charge_cmd_supported : Bool
  room_name_supported : Bool
  current_map_restore_enabled : Bool
  photo_upload_supported : Bool
  shake_mop_set_supported : Bool
  map_beautify_internal_debug_supported : Bool
  new_data_for_clean_history : Bool
  new_data_for_clean_history_detail : Bool
  flow_led_setting_supported : Bool
  dust_collection_setting_supported : Bool
  rpc_retry_supported : Bool
  avoid_collision_supported : Bool
  support_set_switch_map_mode : Bool
  support_smart_scene : Bool
  support_floor_edit : Bool
  support_furniture : Bool
  support_room_tag : Bool
  support_quick_map_builder : Bool
  support_smart_global_clean_with_custom_mode : Bool
  record_allowed : Bool
  careful_slow_map_supported : Bool
  egg_mode_supported : Bool
  unsave_map_reason_supported : Bool
  carpet_show_on_map : Bool
  supported_valley_electricity : Bool
  drying_supported : Bool
  download_test_voice_supported : Bool
  support_backup_map : Bool
  support_custom_mode_in_cleaning : Bool
  support_remote_control_in_call : Bool
  support_set_volume_in_call : Bool
  support_clean_estimate : Bool
  support_custom_dnd : Bool
  carpet_deep_clean_supported : Bool
  stuck_zone_supported : Bool
  custom_door_sill_supported : Bool
  clean_route_fast_mode_supported : Bool
  cliff_zone_supported : Bool
  smart_door_sill_supported : Bool
  support_floor_direction : Bool
  wifi_manage_supported : Bool
  back_charge_auto_wash_supported : Bool
  support_incremental_map : Bool
  offline_map_supported : Bool
deriving DecidableEq

/-- The `build_device_features(feature_set, new_feature_set)` of
`containers.py` (lines 329–396), translated mask for mask. Python
`bool(mask & n)` is `(mask &&& n) != 0`; `bool(a and mask & n)` (Python
`and` on a truthy test) is the conjunction of the two truthiness tests;
`new_feature_set_divided` carries the float-division semantics of
`pyIntDivPow32`; `converted_new_feature_set` re-reads the last eight
decimal characters as hexadecimal (the documented wire-format quirk). -/
def build_device_features (feature_set : String) (new_feature_set : String) : DeviceFeatures :=
  let new_feature_set_int : Nat := parseDecStr new_feature_set
  let feature_set_int : Nat := parseDecStr feature_set
  let new_feature_set_divided : Nat := pyIntDivPow32 new_feature_set_int
  let converted_new_feature_set : Nat := parseHexStr (lastEight new_feature_set)
  let new_feature_set_mod_8 : Bool := new_feature_set.data.length % 8 == 0
  { map_carpet_add_supported := (1073741824 &&& new_feature_set_int) != 0
    show_clean_finish_reason_supported := (1 &&& new_feature_set_int) != 0
    resegment_supported := (4 &&& new_feature_set_int) != 0
    video_monitor_supported := (8 &&& new_feature_set_int) != 0
    any_state_transit_goto_supported := (16 &&& new_feature_set_int) != 0
    fw_filter_obstacle_supported := (32 &&& new_feature_set_int) != 0
    video_setting_supported := (64 &&& new_feature_set_int) != 0
    ignore_unknown_map_object_supported := (128 &&& new_feature_set_int) != 0
    set_child_supported := (256 &&& new_feature_set_int) != 0
    carpet_supported := (512 &&& new_feature_set_int) != 0
    mop_path_supported := (2048 &&& new_feature_set_int) != 0
    multi_map_segment_timer_supported :=
      (feature_set_int != 0) && ((4096 &&& new_feature_set_int) != 0)
    custom_water_box_distance_supported :=
      (new_feature_set_int != 0) && ((2147483648 &&& new_feature_set_int) != 0)
    wash_then_charge_cmd_supported := ((new_feature_set_divided >>> 5) &&& 1) != 0
    room_name_supported := (16384 &&& new_feature_set_int) != 0
    current_map_restore_enabled := (8192 &&& new_feature_set_int) != 0
    photo_upload_supported := (65536 &&& new_feature_set_int) != 0
    shake_mop_set_supported := (262144 &&& new_feature_set_int) != 0
    map_beautify_internal_debug_supported := (2097152 &&& new_feature_set_int) != 0
    new_data_for_clean_history := (4194304 &&& new_feature_set_int) != 0
    new_data_for_clean_history_detail := (8388608 &&& new_feature_set_int) != 0
    flow_led_setting_supported := (16777216 &&& new_feature_set_int) != 0
    dust_collection_setting_supported := (33554432 &&& new_feature_set_int) != 0
    rpc_retry_supported := (67108864 &&& new_feature_set_int) != 0
    avoid_collision_supported := (134217728 &&& new_feature_set_int) != 0
    support_set_switch_map_mode := (268435456 &&& new_feature_set_int) != 0
    support_smart_scene := (new_feature_set_divided &&& 2) != 0
    support_floor_edit := (new_feature_set_divided &&& 8) != 0
    support_furniture := ((new_feature_set_divided >>> 4) &&& 1) != 0
    support_room_tag := ((new_feature_set_divided >>> 6) &&& 1) != 0
    support_quick_map_builder := ((new_feature_set_divided >>> 7) &&& 1) != 0
    support_smart_global_clean_with_custom_mode :=
      ((new_feature_set_divided >>> 8) &&& 1) != 0
    record_allowed := (1024 &&& new_feature_set_int) != 0
    careful_slow_map_supported := ((new_feature_set_divided >>> 9) &&& 1) != 0
    egg_mode_supported := ((new_feature_set_divided >>> 10) &&& 1) != 0
    unsave_map_reason_supported := ((new_feature_set_divided >>> 14) &&& 1) != 0
    carpet_show_on_map := ((new_feature_set_divided >>> 12) &&& 1) != 0
    supported_valley_electricity := ((new_feature_set_divided >>> 13) &&& 1) != 0
    drying_supported := ((new_feature_set_divided >>> 15) &&& 1) != 0
    download_test_voice_supported := ((new_feature_set_divided >>> 16) &&& 1) != 0
    support_backup_map := ((new_feature_set_divided >>> 17) &&& 1) != 0
    support_custom_mode_in_cleaning := ((new_feature_set_divided >>> 18) &&& 1) != 0
    support_remote_control_in_call := ((new_feature_set_divided >>> 19) &&& 1) != 0
    support_set_volume_in_call :=
      new_feature_set_mod_8 && ((1 &&& converted_new_feature_set) != 0)
    support_clean_estimate :=
      new_feature_set_mod_8 && ((2 &&& converted_new_feature_set) != 0)
    support_custom_dnd :=
      new_feature_set_mod_8 && ((4 &&& converted_new_feature_set) != 0)
    carpet_deep_clean_supported := (8 &&& converted_new_feature_set) != 0
    stuck_zone_supported :=
      new_feature_set_mod_8 && ((16 &&& converted_new_feature_set) != 0)
    custom_door_sill_supported :=
      new_feature_set_mod_8 && ((32 &&& converted_new_feature_set) != 0)
    clean_route_fast_mode_supported := (256 &&& converted_new_feature_set) != 0
    cliff_zone_supported :=
      new_feature_set_mod_8 && ((512 &&& converted_new_feature_set) != 0)
    smart_door_sill_supported :=
      new_feature_set_mod_8 && ((1024 &&& converted_new_feature_set) != 0)
    support_floor_direction :=
      new_feature_set_mod_8 && ((2048 &&& converted_new_feature_set) != 0)
    wifi_manage_supported := (128 &&& converted_new_feature_set) != 0
    back_charge_auto_wash_supported := (4096 &&& converted_new_feature_set) != 0
    support_incremental_map := (8192 &&& converted_new_feature_set) != 0
    offline_map_supported := (16384 &&& converted_new_feature_set) != 0 }

theorem roundNearest53_small {n : Nat} (h : n < 2 ^ 53) : roundNearest53 n = n := by
  rw [roundNearest53, if_pos h]

theorem maskShiftBit (m i : Nat) : (((m >>> i) &&& 1) != 0) = m.testBit i := by
  simp [Nat.testBit, Nat.and_comm]

theorem maskPowBit (m i : Nat) : ((m &&& 2 ^ i) != 0) = m.testBit i := by
  rw [Nat.and_two_pow]
  have hpos : 0 < 2 ^ i := Nat.pos_pow_of_pos i (by norm_num)
  cases h : m.testBit i <;> simp [h, hpos.ne.symm]

/-- C4, counterexample: for the 26-digit extended word whose integer
value is `2^85 + 2^32`, the quantity used by the capability decoder
(`int(n / (2**32))`, float division) is `2^53`, while the exact integer
quotient is `2^53 + 1`: the rounding of `n` to 53 significant bits is an
exact tie resolved to the even neighbour `2^85`, dropping the `2^32`
summand before the shift. -/
theorem extended_high_exact_div_refuted :
    pyDigits ("38685626227668137885564928") = true ∧
    parseDecStr ("38685626227668137885564928") = 2 ^ 85 + 2 ^ 32 ∧
    pyIntDivPow32 (parseDecStr ("38685626227668137885564928")) = 2 ^ 53 ∧
    parseDecStr ("38685626227668137885564928") / 2 ^ 32 = 2 ^ 53 + 1 := by
  refine ⟨by decide, by decide, ?_, by decide⟩
  decide

/-- C4, amended: `extended_high` is `int(extended_word_int / (2**32))`
computed through binary64 float division (the integer is first rounded to
53 significant bits, ties to even); this agrees with the exact integer
quotient whenever the parsed word fits in 53 bits, but not for all
magnitudes. -/
theorem extended_high_float_div_amended (s : String)
    (hd : pyDigits s = true) (hsmall : parseDecStr s < 2 ^ 53) :
    pyIntDivPow32 (parseDecStr s) = parseDecStr s / 2 ^ 32 := by
  rw [pyIntDivPow32, roundNearest53_small hsmall]

/-- Witness for `extended_high_float_div_amended` at the word `"13"`. -/
theorem extended_high_float_div_amended_witness :
    pyIntDivPow32 (parseDecStr ("13")) = parseDecStr ("13") / 2 ^ 32 :=
  extended_high_float_div_amended ("13") (by decide) (by decide)

/-- C2, counterexample: for `extended_word = "4294967296"` (integer
`2^32`), bit 0 of `extended_high` is set, yet the decoder reports
`wash_then_charge_cmd_supported = False`: the source tests bit 5 of
`new_feature_set_divided` (`(new_feature_set_divided >> 5) & 1`), not
bit 0 as claimed. -/
theorem wash_then_charge_bit0_refuted :
    (pyIntDivPow32 (parseDecStr ("4294967296"))).testBit 0 = true ∧
    (build_device_features ("0") ("4294967296")).wash_then_charge_cmd_supported = false := by
  constructor
  · decide
  · decide

/-- C2, amended: on `new_feature_set_divided` (the float-divided
`extended_high` of the source), `wash_then_charge_cmd_supported` is
bit 5 — not bit 0 — while `support_smart_scene`, `support_floor_edit`
and `support_furniture` are bits 1, 3 and 4 as claimed; stated for
extended words fitting in 53 bits, where the float-divided quantity is
the exact quotient. -/
theorem device_features_extended_high_bits_amended (fs nfs : String)
    (hfs : pyDigits fs = true) (hnfs : pyDigits nfs = true)
    (hsmall : parseDecStr nfs < 2 ^ 53) :
    (build_device_features fs nfs).wash_then_charge_cmd_supported
        = (parseDecStr nfs / 2 ^ 32).testBit 5 ∧
    (build_device_features fs nfs).support_smart_scene
        = (parseDecStr nfs / 2 ^ 32).testBit 1 ∧
    (build_device_features fs nfs).support_floor_edit
        = (parseDecStr nfs / 2 ^ 32).testBit 3 ∧
    (build_device_features fs nfs).support_furniture
        = (parseDecStr nfs / 2 ^ 32).testBit 4 := by
  have hdiv : pyIntDivPow32 (parseDecStr nfs) = parseDecStr nfs / 2 ^ 32 := by
    rw [pyIntDivPow32, roundNearest53_small hsmall]
  refine ⟨?_, ?_, ?_, ?_⟩
  · simp only [build_device_features, hdiv]
    rw [maskShiftBit]
  · simp only [build_device_features, hdiv]
    rw [show (2 : Nat) = 2 ^ 1 by norm_num, maskPowBit]
  · simp only [build_device_features, hdiv]
    rw [show (8 : Nat) = 2 ^ 3 by norm_num, maskPowBit]
  · simp only [build_device_features, hdiv]
    rw [maskShiftBit]

/-- Witness for `device_features_extended_high_bits_amended` at
`legacy_word = "0"`, `extended_word = "141733920768"`
(`33 * 2^32`, so `extended_high = 33` with bits 0 and 5 set). -/
theorem device_features_extended_high_bits_amended_witness :
    (build_device_features ("0") ("141733920768")).wash_then_charge_cmd_supported
        = (parseDecStr ("141733920768") / 2 ^ 32).testBit 5 ∧
    (build_device_features ("0") ("141733920768")).support_smart_scene
        = (parseDecStr ("141733920768") / 2 ^ 32).testBit 1 ∧
    (build_device_features ("0") ("141733920768")).support_floor_edit
        = (parseDecStr ("141733920768") / 2 ^ 32).testBit 3 ∧
    (build_device_features ("0") ("141733920768")).support_furniture
        = (parseDecStr ("141733920768") / 2 ^ 32).testBit 4 :=
  device_features_extended_high_bits_amended ("0") ("141733920768")
    (by decide) (by decide) (by decide)

/-- The `_ignore_keys` of `RoborockBase` (the default, inherited by `Status`,
`Consumable` and `NetworkInfo`): no key is exempt from transcoding. -/
def baseIgnoreKeys : List String := []

/-- The `Consumable` (containers.py lines 671–688): nine cumulative wear
counters and eight derived time-left fields, all optional integers. -/
structure Consumable where
  main_brush_work_time : Option Int := none
  side_brush_work_time : Option Int := none
  filter_work_time : Option Int := none
  filter_element_work_time : Option Int := none
  sensor_dirty_time : Option Int := none
  strainer_work_times : Option Int := none
  dust_collection_work_times : Option Int := none
  cleaning_brush_work_times : Option Int := none
  moproller_work_time : Option Int := none
  main_brush_time_left : Option Int := none
  side_brush_time_left : Option Int := none
  filter_time_left : Option Int := none
  sensor_time_left : Option Int := none
  strainer_time_left : Option Int := none
  dust_collection_time_left : Option Int := none
  cleaning_brush_time_left : Option Int := none
  mop_roller_time_left : Option Int := none
deriving DecidableEq

/-- The body of `Consumable.__post_init__` (lines 690–718): each
time-left field is the fixed replacement threshold minus the
corresponding wear counter when that counter is present, with no
clamping. On a pydantic `BaseModel` subclass this method is NOT a
validation hook (only `model_post_init` is) and is therefore never
invoked by `from_dict` / `model_validate`; it is embedded separately so
its intended effect can be stated. -/
def consumablePostInitBody (c : Consumable) : Consumable :=
  { c with
    main_brush_time_left := c.main_brush_work_time.map (fun t => MAIN_BRUSH_REPLACE_TIME - t)
    side_brush_time_left := c.side_brush_work_time.map (fun t => SIDE_BRUSH_REPLACE_TIME - t)
    filter_time_left := c.filter_work_time.map (fun t => FILTER_REPLACE_TIME - t)
    sensor_time_left := c.sensor_dirty_time.map (fun t => SENSOR_DIRTY_REPLACE_TIME - t)
    strainer_time_left := c.strainer_work_times.map (fun t => STRAINER_REPLACE_TIME - t)
    dust_collection_time_left :=
      c.dust_collection_work_times.map (fun t => DUST_COLLECTION_REPLACE_TIME - t)
    cleaning_brush_time_left :=
      c.cleaning_brush_work_times.map (fun t => CLEANING_BRUSH_REPLACE_TIME - t)
    mop_roller_time_left := c.moproller_work_time.map (fun t => MOP_ROLLER_REPLACE_TIME - t) }

/-- Dump segments of `Consumable.as_dict` (base `RoborockBase.as_dict`:
`model_dump(exclude_none=True)` in declaration order, keys camelized,
null fields omitted). -/
def consumableSegs (c : Consumable) : List (String × Option JValue) :=
[
  (camelize ("main_brush_work_time"), c.main_brush_work_time.map JValue.jInt),
  (camelize ("side_brush_work_time"), c.side_brush_work_time.map JValue.jInt),
  (camelize ("filter_work_time"), c.filter_work_time.map JValue.jInt),
  (camelize ("filter_element_work_time"), c.filter_element_work_time.map JValue.jInt),
  (camelize ("sensor_dirty_time"), c.sensor_dirty_time.map JValue.jInt),
  (camelize ("strainer_work_times"), c.strainer_work_times.map JValue.jInt),
  (camelize ("dust_collection_work_times"), c.dust_collection_work_times.map JValue.jInt),
  (camelize ("cleaning_brush_work_times"), c.cleaning_brush_work_times.map JValue.jInt),
  (camelize ("moproller_work_time"), c.moproller_work_time.map JValue.jInt),
  (camelize ("main_brush_time_left"), c.main_brush_time_left.map JValue.jInt),
  (camelize ("side_brush_time_left"), c.side_brush_time_left.map JValue.jInt),
  (camelize ("filter_time_left"), c.filter_time_left.map JValue.jInt),
  (camelize ("sensor_time_left"), c.sensor_time_left.map JValue.jInt),
  (camelize ("strainer_time_left"), c.strainer_time_left.map JValue.jInt),
  (camelize ("dust_collection_time_left"), c.dust_collection_time_left.map JValue.jInt),
  (camelize ("cleaning_brush_time_left"), c.cleaning_brush_time_left.map JValue.jInt),
  (camelize ("mop_roller_time_left"), c.mop_roller_time_left.map JValue.jInt)]

/-- The `Consumable.as_dict()`. -/
def consumableAsDict (c : Consumable) : List (String × JValue) :=
  segsToDict (consumableSegs c)

/-- pydantic `model_validate` for `Consumable` over an already
key-normalised mapping: coerce each declared field (unknown keys
ignored); no `model_post_init` hook exists on `Consumable`, and its
`__post_init__` is not run by pydantic, so the validated fields are
returned as validated. -/
def consumableOfMap (m : List (String × JValue)) : Except String Consumable :=
  ebind (coerceOptInt (getVal m ("main_brush_work_time"))) (fun main_brush_work_time =>
  ebind (coerceOptInt (getVal m ("side_brush_work_time"))) (fun side_brush_work_time =>
  ebind (coerceOptInt (getVal m ("filter_work_time"))) (fun filter_work_time =>
  ebind (coerceOptInt (getVal m ("filter_element_work_time"))) (fun filter_element_work_time =>
  ebind (coerceOptInt (getVal m ("sensor_dirty_time"))) (fun sensor_dirty_time =>
  ebind (coerceOptInt (getVal m ("strainer_work_times"))) (fun strainer_work_times =>
  ebind (coerceOptInt (getVal m ("dust_collection_work_times"))) (fun dust_collection_work_times =>
  ebind (coerceOptInt (getVal m ("cleaning_brush_work_times"))) (fun cleaning_brush_work_times =>
  ebind (coerceOptInt (getVal m ("moproller_work_time"))) (fun moproller_work_time =>
  ebind (coerceOptInt (getVal m ("main_brush_time_left"))) (fun main_brush_time_left =>
  ebind (coerceOptInt (getVal m ("side_brush_time_left"))) (fun side_brush_time_left =>
  ebind (coerceOptInt (getVal m ("filter_time_left"))) (fun filter_time_left =>
  ebind (coerceOptInt (getVal m ("sensor_time_left"))) (fun sensor_time_left =>
  ebind (coerceOptInt (getVal m ("strainer_time_left"))) (fun strainer_time_left =>
  ebind (coerceOptInt (getVal m ("dust_collection_time_left"))) (fun dust_collection_time_left =>
  ebind (coerceOptInt (getVal m ("cleaning_brush_time_left"))) (fun cleaning_brush_time_left =>
  ebind (coerceOptInt (getVal m ("mop_roller_time_left"))) (fun mop_roller_time_left =>
  (.ok (Consumable.mk main_brush_work_time side_brush_work_time filter_work_time filter_element_work_time sensor_dirty_time strainer_work_times dust_collection_work_times cleaning_brush_work_times moproller_work_time main_brush_time_left side_brush_time_left filter_time_left sensor_time_left strainer_time_left dust_collection_time_left cleaning_brush_time_left mop_roller_time_left)))))))))))))))))))

/-- The `Consumable.from_dict` (base `RoborockBase.from_dict`): a mapping is
key-normalised by `decamelize_obj` and validated, `ValueError`s being
wrapped in a `RoborockException` raised from the cause; a non-mapping
returns the default-constructed object. -/
def consumableFromDict (v : JValue) : Except PyErr Consumable :=
  match v with
  | .jObj kvs =>
      match consumableOfMap (decamObj baseIgnoreKeys kvs) with
      | .ok c => .ok c
      | .error m =>
          .error (.roborockError ("Error validating data with pydantic.")
            (some (.validationError m)))
  | _ => .ok {}

/-- The decamelized dump segments of a `Consumable`, with literal keys. -/
def consumableDecamSegs (c : Consumable) : List (String × Option JValue) :=
[
  ("main_brush_work_time", (c.main_brush_work_time.map JValue.jInt).map (decamVal baseIgnoreKeys)),
  ("side_brush_work_time", (c.side_brush_work_time.map JValue.jInt).map (decamVal baseIgnoreKeys)),
  ("filter_work_time", (c.filter_work_time.map JValue.jInt).map (decamVal baseIgnoreKeys)),
  ("filter_element_work_time", (c.filter_element_work_time.map JValue.jInt).map (decamVal baseIgnoreKeys)),
  ("sensor_dirty_time", (c.sensor_dirty_time.map JValue.jInt).map (decamVal baseIgnoreKeys)),
  ("strainer_work_times", (c.strainer_work_times.map JValue.jInt).map (decamVal baseIgnoreKeys)),
  ("dust_collection_work_times", (c.dust_collection_work_times.map JValue.jInt).map (decamVal baseIgnoreKeys)),
  ("cleaning_brush_work_times", (c.cleaning_brush_work_times.map JValue.jInt).map (decamVal baseIgnoreKeys)),
  ("moproller_work_time", (c.moproller_work_time.map JValue.jInt).map (decamVal baseIgnoreKeys)),
  ("main_brush_time_left", (c.main_brush_time_left.map JValue.jInt).map (decamVal baseIgnoreKeys)),
  ("side_brush_time_left", (c.side_brush_time_left.map JValue.jInt).map (decamVal baseIgnoreKeys)),
  ("filter_time_left", (c.filter_time_left.map JValue.jInt).map (decamVal baseIgnoreKeys)),
  ("sensor_time_left", (c.sensor_time_left.map JValue.jInt).map (decamVal baseIgnoreKeys)),
  ("strainer_time_left", (c.strainer_time_left.map JValue.jInt).map (decamVal baseIgnoreKeys)),
  ("dust_collection_time_left", (c.dust_collection_time_left.map JValue.jInt).map (decamVal baseIgnoreKeys)),
  ("cleaning_brush_time_left", (c.cleaning_brush_time_left.map JValue.jInt).map (decamVal baseIgnoreKeys)),
  ("mop_roller_time_left", (c.mop_roller_time_left.map JValue.jInt).map (decamVal baseIgnoreKeys))]

theorem consumableDecamSegs_eq (c : Consumable) :
    decamSegs baseIgnoreKeys (consumableSegs c) = consumableDecamSegs c := rfl

theorem consumableDecamSegs_keys (c : Consumable) :
    ((consumableDecamSegs c).map Prod.fst).Nodup := by
  have h : (consumableDecamSegs c).map Prod.fst = ["main_brush_work_time", "side_brush_work_time", "filter_work_time", "filter_element_work_time", "sensor_dirty_time", "strainer_work_times", "dust_collection_work_times", "cleaning_brush_work_times", "moproller_work_time", "main_brush_time_left", "side_brush_time_left", "filter_time_left", "sensor_time_left", "strainer_time_left", "dust_collection_time_left", "cleaning_brush_time_left", "mop_roller_time_left"] := rfl
  rw [h]
  decide

theorem coerceOptInt_decamMap (ign : List String) (v : Option Int) :
    coerceOptInt ((v.map JValue.jInt).map (decamVal ign)) = .ok v := by
  cases v <;> simp [coerceOptInt, decamVal]

theorem consumableLookup_main_brush_work_time (c : Consumable) :
    lookupSeg (consumableDecamSegs c) ("main_brush_work_time")
      = (c.main_brush_work_time.map JValue.jInt).map (decamVal baseIgnoreKeys) := by
  simp [consumableDecamSegs, lookupSeg, List.find?]

theorem consumableLookup_side_brush_work_time (c : Consumable) :
    lookupSeg (consumableDecamSegs c) ("side_brush_work_time")
      = (c.side_brush_work_time.map JValue.jInt).map (decamVal baseIgnoreKeys) := by
  simp [consumableDecamSegs, lookupSeg, List.find?]

theorem consumableLookup_filter_work_time (c : Consumable) :
    lookupSeg (consumableDecamSegs c) ("filter_work_time")
      = (c.filter_work_time.map JValue.jInt).map (decamVal baseIgnoreKeys) := by
  simp [consumableDecamSegs, lookupSeg, List.find?]

theorem consumableLookup_filter_element_work_time (c : Consumable) :
    lookupSeg (consumableDecamSegs c) ("filter_element_work_time")
      = (c.filter_element_work_time.map JValue.jInt).map (decamVal baseIgnoreKeys) := by
  simp [consumableDecamSegs, lookupSeg, List.find?]

theorem consumableLookup_sensor_dirty_time (c : Consumable) :
    lookupSeg (consumableDecamSegs c) ("sensor_dirty_time")
      = (c.sensor_dirty_time.map JValue.jInt).map (decamVal baseIgnoreKeys) := by
  simp [consumableDecamSegs, lookupSeg, List.find?]

theorem consumableLookup_strainer_work_times (c : Consumable) :
    lookupSeg (consumableDecamSegs c) ("strainer_work_times")
      = (c.strainer_work_times.map JValue.jInt).map (decamVal baseIgnoreKeys) := by
  simp [consumableDecamSegs, lookupSeg, List.find?]

theorem consumableLookup_dust_collection_work_times (c : Consumable) :
    lookupSeg (consumableDecamSegs c) ("dust_collection_work_times")
      = (c.dust_collection_work_times.map JValue.jInt).map (decamVal baseIgnoreKeys) := by
  simp [consumableDecamSegs, lookupSeg, List.find?]

theorem consumableLookup_cleaning_brush_work_times (c : Consumable) :
    lookupSeg (consumableDecamSegs c) ("cleaning_brush_work_times")
      = (c.cleaning_brush_work_times.map JValue.jInt).map (decamVal baseIgnoreKeys) := by
  simp [consumableDecamSegs, lookupSeg, List.find?]

theorem consumableLookup_moproller_work_time (c : Consumable) :
    lookupSeg (consumableDecamSegs c) ("moproller_work_time")
      = (c.moproller_work_time.map JValue.jInt).map (decamVal baseIgnoreKeys) := by
  simp [consumableDecamSegs, lookupSeg, List.find?]

theorem consumableLookup_main_brush_time_left (c : Consumable) :
    lookupSeg (consumableDecamSegs c) ("main_brush_time_left")
      = (c.main_brush_time_left.map JValue.jInt).map (decamVal baseIgnoreKeys) := by
  simp [consumableDecamSegs, lookupSeg, List.find?]

theorem consumableLookup_side_brush_time_left (c : Consumable) :
    lookupSeg (consumableDecamSegs c) ("side_brush_time_left")
      = (c.side_brush_time_left.map JValue.jInt).map (decamVal baseIgnoreKeys) := by
  simp [consumableDecamSegs, lookupSeg, List.find?]

theorem consumableLookup_filter_time_left (c : Consumable) :
    lookupSeg (consumableDecamSegs c) ("filter_time_left")
      = (c.filter_time_left.map JValue.jInt).map (decamVal baseIgnoreKeys) := by
  simp [consumableDecamSegs, lookupSeg, List.find?]

theorem consumableLookup_sensor_time_left (c : Consumable) :
    lookupSeg (consumableDecamSegs c) ("sensor_time_left")
      = (c.sensor_time_left.map JValue.jInt).map (decamVal baseIgnoreKeys) := by
  simp [consumableDecamSegs, lookupSeg, List.find?]

theorem consumableLookup_strainer_time_left (c : Consumable) :
    lookupSeg (consumableDecamSegs c) ("strainer_time_left")
      = (c.strainer_time_left.map JValue.jInt).map (decamVal baseIgnoreKeys) := by
  simp [consumableDecamSegs, lookupSeg, List.find?]

theorem consumableLookup_dust_collection_time_left (c : Consumable) :
    lookupSeg (consumableDecamSegs c) ("dust_collection_time_left")
      = (c.dust_collection_time_left.map JValue.jInt).map (decamVal baseIgnoreKeys) := by
  simp [consumableDecamSegs, lookupSeg, List.find?]

theorem consumableLookup_cleaning_brush_time_left (c : Consumable) :
    lookupSeg (consumableDecamSegs c) ("cleaning_brush_time_left")
      = (c.cleaning_brush_time_left.map JValue.jInt).map (decamVal baseIgnoreKeys) := by
  simp [consumableDecamSegs, lookupSeg, List.find?]

theorem consumableLookup_mop_roller_time_left (c : Consumable) :
    lookupSeg (consumableDecamSegs c) ("mop_roller_time_left")
      = (c.mop_roller_time_left.map JValue.jInt).map (decamVal baseIgnoreKeys) := by
  simp [consumableDecamSegs, lookupSeg, List.find?]

/-- The `decode(encode(c))` over `Consumable` restores every field, nulls
included (they are dropped by the dump and re-defaulted to null by
validation); since no derived-field hook runs, no hypothesis is needed. -/
theorem consumableRoundtrip (c : Consumable) :
    consumableFromDict (.jObj (consumableAsDict c)) = .ok c := by
  have hm : decamObj baseIgnoreKeys (consumableAsDict c)
      = segsToDict (consumableDecamSegs c) := by
    rw [consumableAsDict, decamObj_segsToDict, consumableDecamSegs_eq]
  have hg : ∀ k, getVal (segsToDict (consumableDecamSegs c)) k
      = lookupSeg (consumableDecamSegs c) k :=
    fun k => getVal_segsToDict _ k (consumableDecamSegs_keys c)
  have hof : consumableOfMap (segsToDict (consumableDecamSegs c)) = .ok c := by
    simp only [consumableOfMap, hg, consumableLookup_main_brush_work_time, consumableLookup_side_brush_work_time, consumableLookup_filter_work_time, consumableLookup_filter_element_work_time, consumableLookup_sensor_dirty_time, consumableLookup_strainer_work_times, consumableLookup_dust_collection_work_times, consumableLookup_cleaning_brush_work_times, consumableLookup_moproller_work_time, consumableLookup_main_brush_time_left, consumableLookup_side_brush_time_left, consumableLookup_filter_time_left, consumableLookup_sensor_time_left, consumableLookup_strainer_time_left, consumableLookup_dust_collection_time_left, consumableLookup_cleaning_brush_time_left, consumableLookup_mop_roller_time_left,
      coerceOptInt_decamMap, ebind_ok]
  simp only [consumableFromDict, hm, hof]

/-- C1: the claim is right about the intended computation but the code
never performs it. `Consumable` defines the time-left computation in
`__post_init__`, which pydantic v2 `BaseModel` never invokes (only
`model_post_init` is a hook), so decoding a payload with
`main_brush_work_time = 0` leaves `main_brush_time_left` null instead of
`MAIN_BRUSH_REPLACE_TIME`. The dead hook body, were it invoked, would
produce exactly the claimed values, including the unclamped `-100`. -/
theorem consumable_time_left_not_computed_on_decode :
    consumableFromDict (.jObj [("mainBrushWorkTime", .jInt 0)])
      = .ok { main_brush_work_time := some 0 } ∧
    ({ main_brush_work_time := some 0 } : Consumable).main_brush_time_left = none ∧
    (consumablePostInitBody { main_brush_work_time := some 0 }).main_brush_time_left
      = some MAIN_BRUSH_REPLACE_TIME ∧
    (consumablePostInitBody
        { main_brush_work_time := some (MAIN_BRUSH_REPLACE_TIME + 100) }).main_brush_time_left
      = some (-100) := by
  refine ⟨?_, rfl, ?_, ?_⟩
  · have e1 : decamObj baseIgnoreKeys [("mainBrushWorkTime", .jInt 0)]
        = [("main_brush_work_time", .jInt 0)] := by
      have e2 : decamelize ("mainBrushWorkTime") = "main_brush_work_time" := by decide
      simp [decamObj, decamVal, transcodeKey, baseIgnoreKeys, e2]
    simp only [consumableFromDict, e1]
    rfl
  · simp [consumablePostInitBody]
  · simp [consumablePostInitBody, MAIN_BRUSH_REPLACE_TIME]

/-- The `Status` (containers.py lines 433–492, field order preserved): the
base device-state snapshot. Enum-typed fields (`state`, `error_code`,
`in_cleaning`, `fan_power`, `water_box_mode`, `dock_type`, `mop_mode`,
`dock_error_status`) hold the registered integer code of the member;
registration is enforced at decode time by `coerceOptEnum`. -/
structure Status where
  msg_ver : Option Int := none
  msg_seq : Option Int := none
  state : Option Int := none
  battery : Option Int := none
  clean_time : Option Int := none
  clean_area : Option Int := none
  square_meter_clean_area : Option Rat := none
  error_code : Option Int := none
  map_present : Option Int := none
  in_cleaning : Option Int := none
  in_returning : Option Int := none
  in_fresh_state : Option Int := none
  lab_status : Option Int := none
  water_box_status : Option Int := none
  back_type : Option Int := none
  wash_phase : Option Int := none
  wash_ready : Option Int := none
  fan_power : Option Int := none
  dnd_enabled : Option Int := none
  map_status : Option Int := none
  is_locating : Option Int := none
  lock_status : Option Int := none
  water_box_mode : Option Int := none
  water_box_carriage_status : Option Int := none
  mop_forbidden_enable : Option Int := none
  camera_status : Option Int := none
  is_exploring : Option Int := none
  home_sec_status : Option Int := none
  home_sec_enable_password : Option Int := none
  adbumper_status : Option (List Int) := none
  water_shortage_status : Option Int := none
  dock_type : Option Int := none
  dust_collection_status : Option Int := none
  auto_dust_collection : Option Int := none
  avoid_count : Option Int := none
  mop_mode : Option Int := none
  debug_mode : Option Int := none
  collision_avoid_status : Option Int := none
  switch_map_mode : Option Int := none
  dock_error_status : Option Int := none
  charge_status : Option Int := none
  unsave_map_reason : Option Int := none
  unsave_map_flag : Option Int := none
  wash_status : Option Int := none
  distance_off : Option Int := none
  in_warmup : Option Int := none
  dry_status : Option Int := none
  rdt : Option Int := none
  clean_percent : Option Int := none
  rss : Option Int := none
  dss : Option Int := none
  common_status : Option Int := none
  corner_clean_mode : Option Int := none
  error_code_name : Option String := none
  state_name : Option String := none
  water_box_mode_name : Option String := none
  fan_power_options : List String := []
  fan_power_name : Option String := none
  mop_mode_name : Option String := none
deriving DecidableEq

/-- The `Status.model_post_init` (lines 494–506): the square-meter area is
always recomputed from `clean_area` (null when absent); the derived
name/options fields are reassigned only when their source enum field is
present, and otherwise keep whatever value validation gave them. -/
def statusPostInit (s : Status) : Status :=
  { s with
    square_meter_clean_area := s.clean_area.map roundArea
    error_code_name :=
      match s.error_code with
      | some c => some (enumMemberName errorCodeTable c)
      | none => s.error_code_name
    state_name :=
      match s.state with
      | some c => some (enumMemberName stateTable c)
      | none => s.state_name
    water_box_mode_name :=
      match s.water_box_mode with
      | some c => some (enumMemberName mopIntensityTable c)
      | none => s.water_box_mode_name
    fan_power_options :=
      match s.fan_power with
      | some _ => enumKeys fanPowerTable
      | none => s.fan_power_options
    fan_power_name :=
      match s.fan_power with
      | some c => some (enumMemberName fanPowerTable c)
      | none => s.fan_power_name
    mop_mode_name :=
      match s.mop_mode with
      | some c => some (enumMemberName mopModeTable c)
      | none => s.mop_mode_name }

/-- Dump segments of `Status.as_dict`: `model_dump(exclude_none=True)`
in declaration order, top-level keys camelized, top-level enum members
emitted as their integer codes, null fields omitted. The list is written
as four sublists (concatenated in declaration order by `statusSegs`)
purely to keep elaboration cheap. -/
def statusSegsPart1 (s : Status) : List (String × Option JValue) :=
[
  (camelize ("msg_ver"), s.msg_ver.map JValue.jInt),
  (camelize ("msg_seq"), s.msg_seq.map JValue.jInt),
  (camelize ("state"), s.state.map JValue.jInt),
  (camelize ("battery"), s.battery.map JValue.jInt),
  (camelize ("clean_time"), s.clean_time.map JValue.jInt),
  (camelize ("clean_area"), s.clean_area.map JValue.jInt),
  (camelize ("square_meter_clean_area"), s.square_meter_clean_area.map JValue.jRat),
  (camelize ("error_code"), s.error_code.map JValue.jInt),
  (camelize ("map_present"), s.map_present.map JValue.jInt),
  (camelize ("in_cleaning"), s.in_cleaning.map JValue.jInt),
  (camelize ("in_returning"), s.in_returning.map JValue.jInt),
  (camelize ("in_fresh_state"), s.in_fresh_state.map JValue.jInt),
  (camelize ("lab_status"), s.lab_status.map JValue.jInt),
  (camelize ("water_box_status"), s.water_box_status.map JValue.jInt),
  (camelize ("back_type"), s.back_type.map JValue.jInt)]

/-- Continuation of the `Status.as_dict` dump segments. -/
def statusSegsPart2 (s : Status) : List (String × Option JValue) :=
[
  (camelize ("wash_phase"), s.wash_phase.map JValue.jInt),
  (camelize ("wash_ready"), s.wash_ready.map JValue.jInt),
  (camelize ("fan_power"), s.fan_power.map JValue.jInt),
  (camelize ("dnd_enabled"), s.dnd_enabled.map JValue.jInt),
  (camelize ("map_status"), s.map_status.map JValue.jInt),
  (camelize ("is_locating"), s.is_locating.map JValue.jInt),
  (camelize ("lock_status"), s.lock_status.map JValue.jInt),
  (camelize ("water_box_mode"), s.water_box_mode.map JValue.jInt),
  (camelize ("water_box_carriage_status"), s.water_box_carriage_status.map JValue.jInt),
  (camelize ("mop_forbidden_enable"), s.mop_forbidden_enable.map JValue.jInt),
  (camelize ("camera_status"), s.camera_status.map JValue.jInt),
  (camelize ("is_exploring"), s.is_exploring.map JValue.jInt),
  (camelize ("home_sec_status"), s.home_sec_status.map JValue.jInt),
  (camelize ("home_sec_enable_password"), s.home_sec_enable_password.map JValue.jInt),
  (camelize ("adbumper_status"), s.adbumper_status.map (fun l => JValue.jList (l.map JValue.jInt)))]

/-- Continuation of the `Status.as_dict` dump segments. -/
def statusSegsPart3 (s : Status) : List (String × Option JValue) :=
[
  (camelize ("water_shortage_status"), s.water_shortage_status.map JValue.jInt),
  (camelize ("dock_type"), s.dock_type.map JValue.jInt),
  (camelize ("dust_collection_status"), s.dust_collection_status.map JValue.jInt),
  (camelize ("auto_dust_collection"), s.auto_dust_collection.map JValue.jInt),
  (camelize ("avoid_count"), s.avoid_count.map JValue.jInt),
  (camelize ("mop_mode"), s.mop_mode.map JValue.jInt),
  (camelize ("debug_mode"), s.debug_mode.map JValue.jInt),
  (camelize ("collision_avoid_status"), s.collision_avoid_status.map JValue.jInt),
  (camelize ("switch_map_mode"), s.switch_map_mode.map JValue.jInt),
  (camelize ("dock_error_status"), s.dock_error_status.map JValue.jInt),
  (camelize ("charge_status"), s.charge_status.map JValue.jInt),
  (camelize ("unsave_map_reason"), s.unsave_map_reason.map JValue.jInt),
  (camelize ("unsave_map_flag"), s.unsave_map_flag.map JValue.jInt),
  (camelize ("wash_status"), s.wash_status.map JValue.jInt),
  (camelize ("distance_off"), s.distance_off.map JValue.jInt)]

/-- Continuation of the `Status.as_dict` dump segments. -/
def statusSegsPart4 (s : Status) : List (String × Option JValue) :=
[
  (camelize ("in_warmup"), s.in_warmup.map JValue.jInt),
  (camelize ("dry_status"), s.dry_status.map JValue.jInt),
  (camelize ("rdt"), s.rdt.map JValue.jInt),
  (camelize ("clean_percent"), s.clean_percent.map JValue.jInt),
  (camelize ("rss"), s.rss.map JValue.jInt),
  (camelize ("dss"), s.dss.map JValue.jInt),
  (camelize ("common_status"), s.common_status.map JValue.jInt),
  (camelize ("corner_clean_mode"), s.corner_clean_mode.map JValue.jInt),
  (camelize ("error_code_name"), s.error_code_name.map JValue.jStr),
  (camelize ("state_name"), s.state_name.map JValue.jStr),
  (camelize ("water_box_mode_name"), s.water_box_mode_name.map JValue.jStr),
  (camelize ("fan_power_options"), some (JValue.jList (s.fan_power_options.map JValue.jStr))),
  (camelize ("fan_power_name"), s.fan_power_name.map JValue.jStr),
  (camelize ("mop_mode_name"), s.mop_mode_name.map JValue.jStr)]

/-- The full `Status` dump segment list, in declaration order. -/
def statusSegs (s : Status) : List (String × Option JValue) :=
  statusSegsPart1 s ++ statusSegsPart2 s ++ statusSegsPart3 s ++ statusSegsPart4 s

/-- The `Status.as_dict()`. -/
def statusAsDict (s : Status) : List (String × JValue) := segsToDict (statusSegs s)

/-- pydantic field validation for `Status` over an already key-normalised
mapping: coerce each declared field from the mapping (unknown keys
ignored, missing optional fields defaulted), before `model_post_init`
runs. -/
def statusRawOfMap (m : List (String × JValue)) : Except String Status :=
  ebind (coerceOptInt (getVal m ("msg_ver"))) (fun msg_ver =>
  ebind (coerceOptInt (getVal m ("msg_seq"))) (fun msg_seq =>
  ebind (coerceOptEnum stateTable (getVal m ("state"))) (fun state =>
  ebind (coerceOptInt (getVal m ("battery"))) (fun battery =>
  ebind (coerceOptInt (getVal m ("clean_time"))) (fun clean_time =>
  ebind (coerceOptInt (getVal m ("clean_area"))) (fun clean_area =>
  ebind (coerceOptRat (getVal m ("square_meter_clean_area"))) (fun square_meter_clean_area =>
  ebind (coerceOptEnum errorCodeTable (getVal m ("error_code"))) (fun error_code =>
  ebind (coerceOptInt (getVal m ("map_present"))) (fun map_present =>
  ebind (coerceOptEnum inCleaningTable (getVal m ("in_cleaning"))) (fun in_cleaning =>
  ebind (coerceOptInt (getVal m ("in_returning"))) (fun in_returning =>
  ebind (coerceOptInt (getVal m ("in_fresh_state"))) (fun in_fresh_state =>
  ebind (coerceOptInt (getVal m ("lab_status"))) (fun lab_status =>
  ebind (coerceOptInt (getVal m ("water_box_status"))) (fun water_box_status =>
  ebind (coerceOptInt (getVal m ("back_type"))) (fun back_type =>
  ebind (coerceOptInt (getVal m ("wash_phase"))) (fun wash_phase =>
  ebind (coerceOptInt (getVal m ("wash_ready"))) (fun wash_ready =>
  ebind (coerceOptEnum fanPowerTable (getVal m ("fan_power"))) (fun fan_power =>
  ebind (coerceOptInt (getVal m ("dnd_enabled"))) (fun dnd_enabled =>
  ebind (coerceOptInt (getVal m ("map_status"))) (fun map_status =>
  ebind (coerceOptInt (getVal m ("is_locating"))) (fun is_locating =>
  ebind (coerceOptInt (getVal m ("lock_status"))) (fun lock_status =>
  ebind (coerceOptEnum mopIntensityTable (getVal m ("water_box_mode"))) (fun water_box_mode =>
  ebind (coerceOptInt (getVal m ("water_box_carriage_status"))) (fun water_box_carriage_status =>
  ebind (coerceOptInt (getVal m ("mop_forbidden_enable"))) (fun mop_forbidden_enable =>
  ebind (coerceOptInt (getVal m ("camera_status"))) (fun camera_status =>
  ebind (coerceOptInt (getVal m ("is_exploring"))) (fun is_exploring =>
  ebind (coerceOptInt (getVal m ("home_sec_status"))) (fun home_sec_status =>
  ebind (coerceOptInt (getVal m ("home_sec_enable_password"))) (fun home_sec_enable_password =>
  ebind (coerceOptListInt (getVal m ("adbumper_status"))) (fun adbumper_status =>
  ebind (coerceOptInt (getVal m ("water_shortage_status"))) (fun water_shortage_status =>
  ebind (coerceOptEnum dockTypeTable (getVal m ("dock_type"))) (fun dock_type =>
  ebind (coerceOptInt (getVal m ("dust_collection_status"))) (fun dust_collection_status =>
  ebind (coerceOptInt (getVal m ("auto_dust_collection"))) (fun auto_dust_collection =>
  ebind (coerceOptInt (getVal m ("avoid_count"))) (fun avoid_count =>
  ebind (coerceOptEnum mopModeTable (getVal m ("mop_mode"))) (fun mop_mode =>
  ebind (coerceOptInt (getVal m ("debug_mode"))) (fun debug_mode =>
  ebind (coerceOptInt (getVal m ("collision_avoid_status"))) (fun collision_avoid_status =>
  ebind (coerceOptInt (getVal m ("switch_map_mode"))) (fun switch_map_mode =>
  ebind (coerceOptEnum dockErrorTable (getVal m ("dock_error_status"))) (fun dock_error_status =>
  ebind (coerceOptInt (getVal m ("charge_status"))) (fun charge_status =>
  ebind (coerceOptInt (getVal m ("unsave_map_reason"))) (fun unsave_map_reason =>
  ebind (coerceOptInt (getVal m ("unsave_map_flag"))) (fun unsave_map_flag =>
  ebind (coerceOptInt (getVal m ("wash_status"))) (fun wash_status =>
  ebind (coerceOptInt (getVal m ("distance_off"))) (fun distance_off =>
  ebind (coerceOptInt (getVal m ("in_warmup"))) (fun in_warmup =>
  ebind (coerceOptInt (getVal m ("dry_status"))) (fun dry_status =>
  ebind (coerceOptInt (getVal m ("rdt"))) (fun rdt =>
  ebind (coerceOptInt (getVal m ("clean_percent"))) (fun clean_percent =>
  ebind (coerceOptInt (getVal m ("rss"))) (fun rss =>
  ebind (coerceOptInt (getVal m ("dss"))) (fun dss =>
  ebind (coerceOptInt (getVal m ("common_status"))) (fun common_status =>
  ebind (coerceOptInt (getVal m ("corner_clean_mode"))) (fun corner_clean_mode =>
  ebind (coerceOptStr (getVal m ("error_code_name"))) (fun error_code_name =>
  ebind (coerceOptStr (getVal m ("state_name"))) (fun state_name =>
  ebind (coerceOptStr (getVal m ("water_box_mode_name"))) (fun water_box_mode_name =>
  ebind (coerceListStrD (getVal m ("fan_power_options"))) (fun fan_power_options =>
  ebind (coerceOptStr (getVal m ("fan_power_name"))) (fun fan_power_name =>
  ebind (coerceOptStr (getVal m ("mop_mode_name"))) (fun mop_mode_name =>
  (.ok (Status.mk msg_ver msg_seq state battery clean_time clean_area square_meter_clean_area error_code map_present in_cleaning in_returning in_fresh_state lab_status water_box_status back_type wash_phase wash_ready fan_power dnd_enabled map_status is_locating lock_status water_box_mode water_box_carriage_status mop_forbidden_enable camera_status is_exploring home_sec_status home_sec_enable_password adbumper_status water_shortage_status dock_type dust_collection_status auto_dust_collection avoid_count mop_mode debug_mode collision_avoid_status switch_map_mode dock_error_status charge_status unsave_map_reason unsave_map_flag wash_status distance_off in_warmup dry_status rdt clean_percent rss dss common_status corner_clean_mode error_code_name state_name water_box_mode_name fan_power_options fan_power_name mop_mode_name)))))))))))))))))))))))))))))))))))))))))))))))))))))))))))))

/-- The `model_validate` for `Status`: field validation followed by
`model_post_init` on success. -/
def statusOfMap (m : List (String × JValue)) : Except String Status :=
  match statusRawOfMap m with
  | .ok t => .ok (statusPostInit t)
  | .error e => .error e

/-- The `Status.from_dict`: a mapping is key-normalised by `decamelize_obj`
and validated, with `ValueError`s wrapped in a `RoborockException` raised
from the cause; a non-mapping returns the default-constructed object
(`Status()`, whose construction also runs `model_post_init`). -/
def statusFromDict (v : JValue) : Except PyErr Status :=
  match v with
  | .jObj kvs =>
      match statusOfMap (decamObj baseIgnoreKeys kvs) with
      | .ok s => .ok s
      | .error m =>
          .error (.roborockError ("Error validating data with pydantic.")
            (some (.validationError m)))
  | _ => .ok (statusPostInit {})

/-- The `Status.get_fan_speed_code` (lines 508–511): raise when `fan_power`
is unset, else `self.fan_power.as_dict().get(fan_speed)`. -/
def Status.getFanSpeedCode (s : Status) (fan_speed : String) : Except PyErr (Option Int) :=
  match s.fan_power with
  | none =>
      .error (.roborockError ("Attempted to get fan speed before status has been updated.") none)
  | some _ => .ok (enumAsDictGet fanPowerTable fan_speed)

/-- The `Status.get_mop_intensity_code` (lines 513–516). -/
def Status.getMopIntensityCode (s : Status) (mop_intensity : String) : Except PyErr (Option Int) :=
  match s.water_box_mode with
  | none =>
      .error (.roborockError ("Attempted to get mop_intensity before status has been updated.") none)
  | some _ => .ok (enumAsDictGet mopIntensityTable mop_intensity)

/-- The `Status.get_mop_mode_code` (lines 518–521). -/
def Status.getMopModeCode (s : Status) (mop_mode : String) : Except PyErr (Option Int) :=
  match s.mop_mode with
  | none =>
      .error (.roborockError ("Attempted to get mop_mode before status has been updated.") none)
  | some _ => .ok (enumAsDictGet mopModeTable mop_mode)

/-- The declared (domain-convention) field names of `Status`. -/
def statusDomainKeys : List String :=
["msg_ver", "msg_seq", "state", "battery", "clean_time", "clean_area", "square_meter_clean_area", "error_code", "map_present", "in_cleaning", "in_returning", "in_fresh_state", "lab_status", "water_box_status", "back_type", "wash_phase", "wash_ready", "fan_power", "dnd_enabled", "map_status", "is_locating", "lock_status", "water_box_mode", "water_box_carriage_status", "mop_forbidden_enable", "camera_status", "is_exploring", "home_sec_status", "home_sec_enable_password", "adbumper_status", "water_shortage_status", "dock_type", "dust_collection_status", "auto_dust_collection", "avoid_count", "mop_mode", "debug_mode", "collision_avoid_status", "switch_map_mode", "dock_error_status", "charge_status", "unsave_map_reason", "unsave_map_flag", "wash_status", "distance_off", "in_warmup", "dry_status", "rdt", "clean_percent", "rss", "dss", "common_status", "corner_clean_mode", "error_code_name", "state_name", "water_box_mode_name", "fan_power_options", "fan_power_name", "mop_mode_name"]

/-- The decamelized dump segments of a `Status`, with literal keys
(split into sublists like `statusSegs`). -/
def statusDecamSegsPart1 (s : Status) : List (String × Option JValue) :=
[
  ("msg_ver", (s.msg_ver.map JValue.jInt).map (decamVal baseIgnoreKeys)),
  ("msg_seq", (s.msg_seq.map JValue.jInt).map (decamVal baseIgnoreKeys)),
  ("state", (s.state.map JValue.jInt).map (decamVal baseIgnoreKeys)),
  ("battery", (s.battery.map JValue.jInt).map (decamVal baseIgnoreKeys)),
  ("clean_time", (s.clean_time.map JValue.jInt).map (decamVal baseIgnoreKeys)),
  ("clean_area", (s.clean_area.map JValue.jInt).map (decamVal baseIgnoreKeys)),
  ("square_meter_clean_area", (s.square_meter_clean_area.map JValue.jRat).map (decamVal baseIgnoreKeys)),
  ("error_code", (s.error_code.map JValue.jInt).map (decamVal baseIgnoreKeys)),
  ("map_present", (s.map_present.map JValue.jInt).map (decamVal baseIgnoreKeys)),
  ("in_cleaning", (s.in_cleaning.map JValue.jInt).map (decamVal baseIgnoreKeys)),
  ("in_returning", (s.in_returning.map JValue.jInt).map (decamVal baseIgnoreKeys)),
  ("in_fresh_state", (s.in_fresh_state.map JValue.jInt).map (decamVal baseIgnoreKeys)),
  ("lab_status", (s.lab_status.map JValue.jInt).map (decamVal baseIgnoreKeys)),
  ("water_box_status", (s.water_box_status.map JValue.jInt).map (decamVal baseIgnoreKeys)),
  ("back_type", (s.back_type.map JValue.jInt).map (decamVal baseIgnoreKeys))]

/-- Continuation of the decamelized `Status` dump segments. -/
def statusDecamSegsPart2 (s : Status) : List (String × Option JValue) :=
[
  ("wash_phase", (s.wash_phase.map JValue.jInt).map (decamVal baseIgnoreKeys)),
  ("wash_ready", (s.wash_ready.map JValue.jInt).map (decamVal baseIgnoreKeys)),
  ("fan_power", (s.fan_power.map JValue.jInt).map (decamVal baseIgnoreKeys)),
  ("dnd_enabled", (s.dnd_enabled.map JValue.jInt).map (decamVal baseIgnoreKeys)),
  ("map_status", (s.map_status.map JValue.jInt).map (decamVal baseIgnoreKeys)),
  ("is_locating", (s.is_locating.map JValue.jInt).map (decamVal baseIgnoreKeys)),
  ("lock_status", (s.lock_status.map JValue.jInt).map (decamVal baseIgnoreKeys)),
  ("water_box_mode", (s.water_box_mode.map JValue.jInt).map (decamVal baseIgnoreKeys)),
  ("water_box_carriage_status", (s.water_box_carriage_status.map JValue.jInt).map (decamVal baseIgnoreKeys)),
  ("mop_forbidden_enable", (s.mop_forbidden_enable.map JValue.jInt).map (decamVal baseIgnoreKeys)),
  ("camera_status", (s.camera_status.map JValue.jInt).map (decamVal baseIgnoreKeys)),
  ("is_exploring", (s.is_exploring.map JValue.jInt).map (decamVal baseIgnoreKeys)),
  ("home_sec_status", (s.home_sec_status.map JValue.jInt).map (decamVal baseIgnoreKeys)),
  ("home_sec_enable_password", (s.home_sec_enable_password.map JValue.jInt).map (decamVal baseIgnoreKeys)),
  ("adbumper_status", (s.adbumper_status.map (fun l => JValue.jList (l.map JValue.jInt))).map (decamVal baseIgnoreKeys))]

/-- Continuation of the decamelized `Status` dump segments. -/
def statusDecamSegsPart3 (s : Status) : List (String × Option JValue) :=
[
  ("water_shortage_status", (s.water_shortage_status.map JValue.jInt).map (decamVal baseIgnoreKeys)),
  ("dock_type", (s.dock_type.map JValue.jInt).map (decamVal baseIgnoreKeys)),
  ("dust_collection_status", (s.dust_collection_status.map JValue.jInt).map (decamVal baseIgnoreKeys)),
  ("auto_dust_collection", (s.auto_dust_collection.map JValue.jInt).map (decamVal baseIgnoreKeys)),
  ("avoid_count", (s.avoid_count.map JValue.jInt).map (decamVal baseIgnoreKeys)),
  ("mop_mode", (s.mop_mode.map JValue.jInt).map (decamVal baseIgnoreKeys)),
  ("debug_mode", (s.debug_mode.map JValue.jInt).map (decamVal baseIgnoreKeys)),
  ("collision_avoid_status", (s.collision_avoid_status.map JValue.jInt).map (decamVal baseIgnoreKeys)),
  ("switch_map_mode", (s.switch_map_mode.map JValue.jInt).map (decamVal baseIgnoreKeys)),
  ("dock_error_status", (s.dock_error_status.map JValue.jInt).map (decamVal baseIgnoreKeys)),
  ("charge_status", (s.charge_status.map JValue.jInt).map (decamVal baseIgnoreKeys)),
  ("unsave_map_reason", (s.unsave_map_reason.map JValue.jInt).map (decamVal baseIgnoreKeys)),
  ("unsave_map_flag", (s.unsave_map_flag.map JValue.jInt).map (decamVal baseIgnoreKeys)),
  ("wash_status", (s.wash_status.map JValue.jInt).map (decamVal baseIgnoreKeys)),
  ("distance_off", (s.distance_off.map JValue.jInt).map (decamVal baseIgnoreKeys))]

/-- Continuation of the decamelized `Status` dump segments. -/
def statusDecamSegsPart4 (s : Status) : List (String × Option JValue) :=
[
  ("in_warmup", (s.in_warmup.map JValue.jInt).map (decamVal baseIgnoreKeys)),
  ("dry_status", (s.dry_status.map JValue.jInt).map (decamVal baseIgnoreKeys)),
  ("rdt", (s.rdt.map JValue.jInt).map (decamVal baseIgnoreKeys)),
  ("clean_percent", (s.clean_percent.map JValue.jInt).map (decamVal baseIgnoreKeys)),
  ("rss", (s.rss.map JValue.jInt).map (decamVal baseIgnoreKeys)),
  ("dss", (s.dss.map JValue.jInt).map (decamVal baseIgnoreKeys)),
  ("common_status", (s.common_status.map JValue.jInt).map (decamVal baseIgnoreKeys)),
  ("corner_clean_mode", (s.corner_clean_mode.map JValue.jInt).map (decamVal baseIgnoreKeys)),
  ("error_code_name", (s.error_code_name.map JValue.jStr).map (decamVal baseIgnoreKeys)),
  ("state_name", (s.state_name.map JValue.jStr).map (decamVal baseIgnoreKeys)),
  ("water_box_mode_name", (s.water_box_mode_name.map JValue.jStr).map (decamVal baseIgnoreKeys)),
  ("fan_power_options", (some (JValue.jList (s.fan_power_options.map JValue.jStr))).map (decamVal baseIgnoreKeys)),
  ("fan_power_name", (s.fan_power_name.map JValue.jStr).map (decamVal baseIgnoreKeys)),
  ("mop_mode_name", (s.mop_mode_name.map JValue.jStr).map (decamVal baseIgnoreKeys))]

/-- The full decamelized `Status` dump segment list. -/
def statusDecamSegs (s : Status) : List (String × Option JValue) :=
  statusDecamSegsPart1 s ++ statusDecamSegsPart2 s ++ statusDecamSegsPart3 s ++ statusDecamSegsPart4 s

theorem statusDecamSegs_eq (s : Status) :
    decamSegs baseIgnoreKeys (statusSegs s) = statusDecamSegs s := rfl

theorem statusDecamSegs_keys (s : Status) :
    ((statusDecamSegs s).map Prod.fst).Nodup := by
  have h : (statusDecamSegs s).map Prod.fst = statusDomainKeys := rfl
  rw [h, statusDomainKeys]
  decide

theorem statusLookup_msg_ver (s : Status) :
    lookupSeg (statusDecamSegs s) ("msg_ver")
      = (s.msg_ver.map JValue.jInt).map (decamVal baseIgnoreKeys) := rfl

theorem statusLookup_msg_seq (s : Status) :
    lookupSeg (statusDecamSegs s) ("msg_seq")
      = (s.msg_seq.map JValue.jInt).map (decamVal baseIgnoreKeys) := rfl

theorem statusLookup_state (s : Status) :
    lookupSeg (statusDecamSegs s) ("state")
      = (s.state.map JValue.jInt).map (decamVal baseIgnoreKeys) := rfl

theorem statusLookup_battery (s : Status) :
    lookupSeg (statusDecamSegs s) ("battery")
      = (s.battery.map JValue.jInt).map (decamVal baseIgnoreKeys) := rfl

theorem statusLookup_clean_time (s : Status) :
    lookupSeg (statusDecamSegs s) ("clean_time")
      = (s.clean_time.map JValue.jInt).map (decamVal baseIgnoreKeys) := rfl

theorem statusLookup_clean_area (s : Status) :
    lookupSeg (statusDecamSegs s) ("clean_area")
      = (s.clean_area.map JValue.jInt).map (decamVal baseIgnoreKeys) := rfl

theorem statusLookup_square_meter_clean_area (s : Status) :
    lookupSeg (statusDecamSegs s) ("square_meter_clean_area")
      = (s.square_meter_clean_area.map JValue.jRat).map (decamVal baseIgnoreKeys) := rfl

theorem statusLookup_error_code (s : Status) :
    lookupSeg (statusDecamSegs s) ("error_code")
      = (s.error_code.map JValue.jInt).map (decamVal baseIgnoreKeys) := rfl

theorem statusLookup_map_present (s : Status) :
    lookupSeg (statusDecamSegs s) ("map_present")
      = (s.map_present.map JValue.jInt).map (decamVal baseIgnoreKeys) := rfl

theorem statusLookup_in_cleaning (s : Status) :
    lookupSeg (statusDecamSegs s) ("in_cleaning")
      = (s.in_cleaning.map JValue.jInt).map (decamVal baseIgnoreKeys) := rfl

theorem statusLookup_in_returning (s : Status) :
    lookupSeg (statusDecamSegs s) ("in_returning")
      = (s.in_returning.map JValue.jInt).map (decamVal baseIgnoreKeys) := rfl

theorem statusLookup_in_fresh_state (s : Status) :
    lookupSeg (statusDecamSegs s) ("in_fresh_state")
      = (s.in_fresh_state.map JValue.jInt).map (decamVal baseIgnoreKeys) := rfl

theorem statusLookup_lab_status (s : Status) :
    lookupSeg (statusDecamSegs s) ("lab_status")
      = (s.lab_status.map JValue.jInt).map (decamVal baseIgnoreKeys) := rfl

theorem statusLookup_water_box_status (s : Status) :
    lookupSeg (statusDecamSegs s) ("water_box_status")
      = (s.water_box_status.map JValue.jInt).map (decamVal baseIgnoreKeys) := rfl

theorem statusLookup_back_type (s : Status) :
    lookupSeg (statusDecamSegs s) ("back_type")
      = (s.back_type.map JValue.jInt).map (decamVal baseIgnoreKeys) := rfl

theorem statusLookup_wash_phase (s : Status) :
    lookupSeg (statusDecamSegs s) ("wash_phase")
      = (s.wash_phase.map JValue.jInt).map (decamVal baseIgnoreKeys) := rfl

theorem statusLookup_wash_ready (s : Status) :
    lookupSeg (statusDecamSegs s) ("wash_ready")
      = (s.wash_ready.map JValue.jInt).map (decamVal baseIgnoreKeys) := rfl

theorem statusLookup_fan_power (s : Status) :
    lookupSeg (statusDecamSegs s) ("fan_power")
      = (s.fan_power.map JValue.jInt).map (decamVal baseIgnoreKeys) := rfl

theorem statusLookup_dnd_enabled (s : Status) :
    lookupSeg (statusDecamSegs s) ("dnd_enabled")
      = (s.dnd_enabled.map JValue.jInt).map (decamVal baseIgnoreKeys) := rfl

theorem statusLookup_map_status (s : Status) :
    lookupSeg (statusDecamSegs s) ("map_status")
      = (s.map_status.map JValue.jInt).map (decamVal baseIgnoreKeys) := rfl

theorem statusLookup_is_locating (s : Status) :
    lookupSeg (statusDecamSegs s) ("is_locating")
      = (s.is_locating.map JValue.jInt).map (decamVal baseIgnoreKeys) := rfl

theorem statusLookup_lock_status (s : Status) :
    lookupSeg (statusDecamSegs s) ("lock_status")
      = (s.lock_status.map JValue.jInt).map (decamVal baseIgnoreKeys) := rfl

theorem statusLookup_water_box_mode (s : Status) :
    lookupSeg (statusDecamSegs s) ("water_box_mode")
      = (s.water_box_mode.map JValue.jInt).map (decamVal baseIgnoreKeys) := rfl

theorem statusLookup_water_box_carriage_status (s : Status) :
    lookupSeg (statusDecamSegs s) ("water_box_carriage_status")
      = (s.water_box_carriage_status.map JValue.jInt).map (decamVal baseIgnoreKeys) := rfl

theorem statusLookup_mop_forbidden_enable (s : Status) :
    lookupSeg (statusDecamSegs s) ("mop_forbidden_enable")
      = (s.mop_forbidden_enable.map JValue.jInt).map (decamVal baseIgnoreKeys) := rfl

theorem statusLookup_camera_status (s : Status) :
    lookupSeg (statusDecamSegs s) ("camera_status")
      = (s.camera_status.map JValue.jInt).map (decamVal baseIgnoreKeys) := rfl

theorem statusLookup_is_exploring (s : Status) :
    lookupSeg (statusDecamSegs s) ("is_exploring")
      = (s.is_exploring.map JValue.jInt).map (decamVal baseIgnoreKeys) := rfl

theorem statusLookup_home_sec_status (s : Status) :
    lookupSeg (statusDecamSegs s) ("home_sec_status")
      = (s.home_sec_status.map JValue.jInt).map (decamVal baseIgnoreKeys) := rfl

theorem statusLookup_home_sec_enable_password (s : Status) :
    lookupSeg (statusDecamSegs s) ("home_sec_enable_password")
      = (s.home_sec_enable_password.map JValue.jInt).map (decamVal baseIgnoreKeys) := rfl

theorem statusLookup_adbumper_status (s : Status) :
    lookupSeg (statusDecamSegs s) ("adbumper_status")
      = (s.adbumper_status.map (fun l => JValue.jList (l.map JValue.jInt))).map (decamVal baseIgnoreKeys) := rfl

theorem statusLookup_water_shortage_status (s : Status) :
    lookupSeg (statusDecamSegs s) ("water_shortage_status")
      = (s.water_shortage_status.map JValue.jInt).map (decamVal baseIgnoreKeys) := rfl

theorem statusLookup_dock_type (s : Status) :
    lookupSeg (statusDecamSegs s) ("dock_type")
      = (s.dock_type.map JValue.jInt).map (decamVal baseIgnoreKeys) := rfl

theorem statusLookup_dust_collection_status (s : Status) :
    lookupSeg (statusDecamSegs s) ("dust_collection_status")
      = (s.dust_collection_status.map JValue.jInt).map (decamVal baseIgnoreKeys) := rfl

theorem statusLookup_auto_dust_collection (s : Status) :
    lookupSeg (statusDecamSegs s) ("auto_dust_collection")
      = (s.auto_dust_collection.map JValue.jInt).map (decamVal baseIgnoreKeys) := rfl

theorem statusLookup_avoid_count (s : Status) :
    lookupSeg (statusDecamSegs s) ("avoid_count")
      = (s.avoid_count.map JValue.jInt).map (decamVal baseIgnoreKeys) := rfl

theorem statusLookup_mop_mode (s : Status) :
    lookupSeg (statusDecamSegs s) ("mop_mode")
      = (s.mop_mode.map JValue.jInt).map (decamVal baseIgnoreKeys) := rfl

theorem statusLookup_debug_mode (s : Status) :
    lookupSeg (statusDecamSegs s) ("debug_mode")
      = (s.debug_mode.map JValue.jInt).map (decamVal baseIgnoreKeys) := rfl

theorem statusLookup_collision_avoid_status (s : Status) :
    lookupSeg (statusDecamSegs s) ("collision_avoid_status")
      = (s.collision_avoid_status.map JValue.jInt).map (decamVal baseIgnoreKeys) := rfl

theorem statusLookup_switch_map_mode (s : Status) :
    lookupSeg (statusDecamSegs s) ("switch_map_mode")
      = (s.switch_map_mode.map JValue.jInt).map (decamVal baseIgnoreKeys) := rfl

theorem statusLookup_dock_error_status (s : Status) :
    lookupSeg (statusDecamSegs s) ("dock_error_status")
      = (s.dock_error_status.map JValue.jInt).map (decamVal baseIgnoreKeys) := rfl

theorem statusLookup_charge_status (s : Status) :
    lookupSeg (statusDecamSegs s) ("charge_status")
      = (s.charge_status.map JValue.jInt).map (decamVal baseIgnoreKeys) := rfl

theorem statusLookup_unsave_map_reason (s : Status) :
    lookupSeg (statusDecamSegs s) ("unsave_map_reason")
      = (s.unsave_map_reason.map JValue.jInt).map (decamVal baseIgnoreKeys) := rfl

theorem statusLookup_unsave_map_flag (s : Status) :
    lookupSeg (statusDecamSegs s) ("unsave_map_flag")
      = (s.unsave_map_flag.map JValue.jInt).map (decamVal baseIgnoreKeys) := rfl

theorem statusLookup_wash_status (s : Status) :
    lookupSeg (statusDecamSegs s) ("wash_status")
      = (s.wash_status.map JValue.jInt).map (decamVal baseIgnoreKeys) := rfl

theorem statusLookup_distance_off (s : Status) :
    lookupSeg (statusDecamSegs s) ("distance_off")
      = (s.distance_off.map JValue.jInt).map (decamVal baseIgnoreKeys) := rfl

theorem statusLookup_in_warmup (s : Status) :
    lookupSeg (statusDecamSegs s) ("in_warmup")
      = (s.in_warmup.map JValue.jInt).map (decamVal baseIgnoreKeys) := rfl

theorem statusLookup_dry_status (s : Status) :
    lookupSeg (statusDecamSegs s) ("dry_status")
      = (s.dry_status.map JValue.jInt).map (decamVal baseIgnoreKeys) := rfl

theorem statusLookup_rdt (s : Status) :
    lookupSeg (statusDecamSegs s) ("rdt")
      = (s.rdt.map JValue.jInt).map (decamVal baseIgnoreKeys) := rfl

theorem statusLookup_clean_percent (s : Status) :
    lookupSeg (statusDecamSegs s) ("clean_percent")
      = (s.clean_percent.map JValue.jInt).map (decamVal baseIgnoreKeys) := rfl

theorem statusLookup_rss (s : Status) :
    lookupSeg (statusDecamSegs s) ("rss")
      = (s.rss.map JValue.jInt).map (decamVal baseIgnoreKeys) := rfl

theorem statusLookup_dss (s : Status) :
    lookupSeg (statusDecamSegs s) ("dss")
      = (s.dss.map JValue.jInt).map (decamVal baseIgnoreKeys) := rfl

theorem statusLookup_common_status (s : Status) :
    lookupSeg (statusDecamSegs s) ("common_status")
      = (s.common_status.map JValue.jInt).map (decamVal baseIgnoreKeys) := rfl

theorem statusLookup_corner_clean_mode (s : Status) :
    lookupSeg (statusDecamSegs s) ("corner_clean_mode")
      = (s.corner_clean_mode.map JValue.jInt).map (decamVal baseIgnoreKeys) := rfl

theorem statusLookup_error_code_name (s : Status) :
    lookupSeg (statusDecamSegs s) ("error_code_name")
      = (s.error_code_name.map JValue.jStr).map (decamVal baseIgnoreKeys) := rfl

theorem statusLookup_state_name (s : Status) :
    lookupSeg (statusDecamSegs s) ("state_name")
      = (s.state_name.map JValue.jStr).map (decamVal baseIgnoreKeys) := rfl

theorem statusLookup_water_box_mode_name (s : Status) :
    lookupSeg (statusDecamSegs s) ("water_box_mode_name")
      = (s.water_box_mode_name.map JValue.jStr).map (decamVal baseIgnoreKeys) := rfl

theorem statusLookup_fan_power_options (s : Status) :
    lookupSeg (statusDecamSegs s) ("fan_power_options")
      = (some (JValue.jList (s.fan_power_options.map JValue.jStr))).map (decamVal baseIgnoreKeys) := rfl

theorem statusLookup_fan_power_name (s : Status) :
    lookupSeg (statusDecamSegs s) ("fan_power_name")
      = (s.fan_power_name.map JValue.jStr).map (decamVal baseIgnoreKeys) := rfl

theorem statusLookup_mop_mode_name (s : Status) :
    lookupSeg (statusDecamSegs s) ("mop_mode_name")
      = (s.mop_mode_name.map JValue.jStr).map (decamVal baseIgnoreKeys) := rfl

theorem coerceOptRat_decamMap (ign : List String) (v : Option Rat) :
    coerceOptRat ((v.map JValue.jRat).map (decamVal ign)) = .ok v := by
  cases v <;> simp [coerceOptRat, decamVal]

theorem coerceOptStr_decamMap (ign : List String) (v : Option String) :
    coerceOptStr ((v.map JValue.jStr).map (decamVal ign)) = .ok v := by
  cases v <;> simp [coerceOptStr, decamVal]

theorem coerceIntList_map (l : List Int) : coerceIntList (l.map JValue.jInt) = .ok l := by
  induction l with
  | nil => rfl
  | cons x xs ih => simp [coerceIntList, ih, ebind]

theorem coerceOptListInt_decamMap (ign : List String) (v : Option (List Int)) :
    coerceOptListInt ((v.map (fun l => JValue.jList (l.map JValue.jInt))).map (decamVal ign))
      = .ok v := by
  cases v with
  | none => simp [coerceOptListInt]
  | some l => simp [decamVal, decamList_int_map, coerceOptListInt, coerceIntList_map, ebind]

theorem coerceStrList_map (l : List String) : coerceStrList (l.map JValue.jStr) = .ok l := by
  induction l with
  | nil => rfl
  | cons x xs ih => simp [coerceStrList, ih, ebind]

theorem coerceListStrD_decamMap (ign : List String) (l : List String) :
    coerceListStrD ((some (JValue.jList (l.map JValue.jStr))).map (decamVal ign)) = .ok l := by
  simp [decamVal, decamList_str_map, coerceListStrD, coerceStrList_map]

theorem coerceOptEnum_decamMap (tbl : List (String × Int)) (ign : List String) (v : Option Int)
    (h : ∀ c, v = some c → (tableCodes tbl).contains c = true) :
    coerceOptEnum tbl ((v.map JValue.jInt).map (decamVal ign)) = .ok v := by
  cases v with
  | none => simp [coerceOptEnum]
  | some c =>
      have hc : c ∈ tableCodes tbl := by
        have hc0 := h c rfl
        simpa using hc0
      simp [decamVal, coerceOptEnum, hc]

/-- An optional enum field holds a registered code of its table. -/
def optInTable (tbl : List (String × Int)) (v : Option Int) : Prop :=
  ∀ c, v = some c → (tableCodes tbl).contains c = true

/-- A `Status` value as Python can construct it: construction always runs
`model_post_init` (so the value is a fixed point of it), and every enum
field holds a registered code of its table. -/
def ValidStatus (s : Status) : Prop :=
  statusPostInit s = s ∧
  optInTable stateTable s.state ∧
  optInTable errorCodeTable s.error_code ∧
  optInTable inCleaningTable s.in_cleaning ∧
  optInTable fanPowerTable s.fan_power ∧
  optInTable mopIntensityTable s.water_box_mode ∧
  optInTable dockTypeTable s.dock_type ∧
  optInTable mopModeTable s.mop_mode ∧
  optInTable dockErrorTable s.dock_error_status

/-- The `decode(encode(s))` over `Status` restores every field of a
constructible (post-init-fixed, enum-registered) value: nulls are dropped
by the dump and re-defaulted by validation, enum codes are re-validated
against their tables, and `model_post_init` recomputes the derived
fields to the values they already have. -/
theorem statusRoundtrip (s : Status) (hv : ValidStatus s) :
    statusFromDict (.jObj (statusAsDict s)) = .ok s := by
  obtain ⟨hfix, hstate, herr, hincl, hfan, hwbm, hdock, hmop, hdocke⟩ := hv
  have hm : decamObj baseIgnoreKeys (statusAsDict s) = segsToDict (statusDecamSegs s) := by
    rw [statusAsDict, decamObj_segsToDict, statusDecamSegs_eq]
  have hg : ∀ k, getVal (segsToDict (statusDecamSegs s)) k = lookupSeg (statusDecamSegs s) k :=
    fun k => getVal_segsToDict _ k (statusDecamSegs_keys s)
  have he1 := coerceOptEnum_decamMap stateTable baseIgnoreKeys s.state hstate
  have he2 := coerceOptEnum_decamMap errorCodeTable baseIgnoreKeys s.error_code herr
  have he3 := coerceOptEnum_decamMap inCleaningTable baseIgnoreKeys s.in_cleaning hincl
  have he4 := coerceOptEnum_decamMap fanPowerTable baseIgnoreKeys s.fan_power hfan
  have he5 := coerceOptEnum_decamMap mopIntensityTable baseIgnoreKeys s.water_box_mode hwbm
  have he6 := coerceOptEnum_decamMap dockTypeTable baseIgnoreKeys s.dock_type hdock
  have he7 := coerceOptEnum_decamMap mopModeTable baseIgnoreKeys s.mop_mode hmop
  have he8 := coerceOptEnum_decamMap dockErrorTable baseIgnoreKeys s.dock_error_status hdocke
  have hof : statusOfMap (segsToDict (statusDecamSegs s)) = .ok s := by
    simp only [statusOfMap, statusRawOfMap, hg,
      statusLookup_msg_ver,
      statusLookup_msg_seq,
      statusLookup_state,
      statusLookup_battery,
      statusLookup_clean_time,
      statusLookup_clean_area,
      statusLookup_square_meter_clean_area,
      statusLookup_error_code,
      statusLookup_map_present,
      statusLookup_in_cleaning,
      statusLookup_in_returning,
      statusLookup_in_fresh_state,
      statusLookup_lab_status,
      statusLookup_water_box_status,
      statusLookup_back_type,
      statusLookup_wash_phase,
      statusLookup_wash_ready,
      statusLookup_fan_power,
      statusLookup_dnd_enabled,
      statusLookup_map_status,
      statusLookup_is_locating,
      statusLookup_lock_status,
      statusLookup_water_box_mode,
      statusLookup_water_box_carriage_status,
      statusLookup_mop_forbidden_enable,
      statusLookup_camera_status,
      statusLookup_is_exploring,
      statusLookup_home_sec_status,
      statusLookup_home_sec_enable_password,
      statusLookup_adbumper_status,
      statusLookup_water_shortage_status,
      statusLookup_dock_type,
      statusLookup_dust_collection_status,
      statusLookup_auto_dust_collection,
      statusLookup_avoid_count,
      statusLookup_mop_mode,
      statusLookup_debug_mode,
      statusLookup_collision_avoid_status,
      statusLookup_switch_map_mode,
      statusLookup_dock_error_status,
      statusLookup_charge_status,
      statusLookup_unsave_map_reason,
      statusLookup_unsave_map_flag,
      statusLookup_wash_status,
      statusLookup_distance_off,
      statusLookup_in_warmup,
      statusLookup_dry_status,
      statusLookup_rdt,
      statusLookup_clean_percent,
      statusLookup_rss,
      statusLookup_dss,
      statusLookup_common_status,
      statusLookup_corner_clean_mode,
      statusLookup_error_code_name,
      statusLookup_state_name,
      statusLookup_water_box_mode_name,
      statusLookup_fan_power_options,
      statusLookup_fan_power_name,
      statusLookup_mop_mode_name,
      coerceOptInt_decamMap, coerceOptRat_decamMap, coerceOptStr_decamMap,
      coerceOptListInt_decamMap, coerceListStrD_decamMap,
      he1, he2, he3, he4, he5, he6, he7, he8, ebind_ok]
    show Except.ok (statusPostInit s) = .ok s
    rw [hfix]
  simp only [statusFromDict, hm, hof]

/-- The `NetworkInfo` (containers.py lines 765–770): the one embedded entity
with a required field (`ip`), exercising the `from_dict` fallback on a
schema whose default construction cannot succeed. -/
structure NetworkInfo where
  ip : String
  ssid : Option String := none
  mac : Option String := none
  bssid : Option String := none
  rssi : Option Int := none
deriving DecidableEq

/-- pydantic field validation for `NetworkInfo` over a key-normalised
mapping. -/
def networkInfoOfMap (m : List (String × JValue)) : Except String NetworkInfo :=
  ebind (coerceReqStr (getVal m ("ip"))) (fun ip =>
  ebind (coerceOptStr (getVal m ("ssid"))) (fun ssid =>
  ebind (coerceOptStr (getVal m ("mac"))) (fun mac =>
  ebind (coerceOptStr (getVal m ("bssid"))) (fun bssid =>
  ebind (coerceOptInt (getVal m ("rssi"))) (fun rssi =>
  (.ok (NetworkInfo.mk ip ssid mac bssid rssi)))))))

/-- The `NetworkInfo.from_dict`: for a mapping, normalise and validate,
wrapping `ValueError`s; for a non-mapping the source executes
`return cls()`, and `NetworkInfo()` itself raises a `ValidationError`
(outside the try block, so unwrapped) because `ip` is required and has
no default. -/
def networkInfoFromDict (v : JValue) : Except PyErr NetworkInfo :=
  match v with
  | .jObj kvs =>
      match networkInfoOfMap (decamObj baseIgnoreKeys kvs) with
      | .ok x => .ok x
      | .error m =>
          .error (.roborockError ("Error validating data with pydantic.")
            (some (.validationError m)))
  | _ => .error (.validationError ("field required"))

/-- The `_ignore_keys` of `MultiMapsList` and `MultiMapsListMapInfo`
(containers.py lines 729, 740). -/
def multiMapsIgnoreKeys : List String := ["mapFlag"]

/-- The `MultiMapsListMapInfoBakMaps` (lines 722–724): two `Any`-typed
optional fields, embedded as raw passthrough values. -/
structure MultiMapsListMapInfoBakMaps where
  mapflag : Option JValue := none
  add_time : Option JValue := none

/-- The `MultiMapsListMapInfo` (lines 728–735): note the wire-cased declared
field name `mapFlag`, protected from transcoding by `_ignore_keys`. -/
structure MultiMapsListMapInfo where
  mapFlag : Int
  name : String
  add_time : Option JValue := none
  length : Option JValue := none
  bak_maps : Option (List MultiMapsListMapInfoBakMaps) := none

/-- The `MultiMapsList` (lines 739–745). -/
structure MultiMapsList where
  max_multi_map : Option Int := none
  max_bak_map : Option Int := none
  multi_map_count : Option Int := none
  map_info : Option (List MultiMapsListMapInfo) := none

/-- Dump segments of a nested `MultiMapsListMapInfoBakMaps` inside
`model_dump`: field-name keys (nested dumps are not camelized; only the
top-level `as_dict` comprehension transforms keys), nulls omitted. -/
def bakMapsSegs (b : MultiMapsListMapInfoBakMaps) : List (String × Option JValue) :=
  [("mapflag", b.mapflag), ("add_time", b.add_time)]

/-- The dumped mapping of a nested `MultiMapsListMapInfoBakMaps`. -/
def bakMapsDump (b : MultiMapsListMapInfoBakMaps) : List (String × JValue) :=
  segsToDict (bakMapsSegs b)

/-- Dump segments of a nested `MultiMapsListMapInfo` inside `model_dump`:
field-name keys, nested models dumped recursively, nulls omitted. -/
def mapInfoSegs (i : MultiMapsListMapInfo) : List (String × Option JValue) :=
  [("mapFlag", some (.jInt i.mapFlag)),
   ("name", some (.jStr i.name)),
   ("add_time", i.add_time),
   ("length", i.length),
   ("bak_maps", i.bak_maps.map (fun l => .jList (l.map (fun b => .jObj (bakMapsDump b)))))]

/-- The dumped mapping of a nested `MultiMapsListMapInfo`. -/
def mapInfoDump (i : MultiMapsListMapInfo) : List (String × JValue) :=
  segsToDict (mapInfoSegs i)

/-- Dump segments of `MultiMapsList.as_dict`: `model_dump` flattens the
nested `map_info` models to mappings first, so only the four top-level
keys pass through `camelize`; the keys inside the nested mappings keep
their domain field names. -/
def multiMapsListSegs (x : MultiMapsList) : List (String × Option JValue) :=
  [(camelize ("max_multi_map"), x.max_multi_map.map JValue.jInt),
   (camelize ("max_bak_map"), x.max_bak_map.map JValue.jInt),
   (camelize ("multi_map_count"), x.multi_map_count.map JValue.jInt),
   (camelize ("map_info"),
     x.map_info.map (fun l => .jList (l.map (fun i => .jObj (mapInfoDump i)))))]

/-- The `MultiMapsList.as_dict()`. -/
def multiMapsListAsDict (x : MultiMapsList) : List (String × JValue) :=
  segsToDict (multiMapsListSegs x)

/-- pydantic field validation for a nested `MultiMapsListMapInfoBakMaps`
mapping. -/
def bakMapsOfMap (m : List (String × JValue)) : Except String MultiMapsListMapInfoBakMaps :=
  ebind (coerceOptAny (getVal m ("mapflag"))) (fun mapflag =>
  ebind (coerceOptAny (getVal m ("add_time"))) (fun add_time =>
  (.ok (MultiMapsListMapInfoBakMaps.mk mapflag add_time))))

/-- Coercion of one element of `list[MultiMapsListMapInfoBakMaps]`. -/
def coerceBakMapsItem : JValue → Except String MultiMapsListMapInfoBakMaps
  | .jObj kvs => bakMapsOfMap kvs
  | _ => .error ("value is not a valid mapping")

/-- Element-wise coercion of `list[MultiMapsListMapInfoBakMaps]`. -/
def coerceBakMapsList : List JValue → Except String (List MultiMapsListMapInfoBakMaps)
  | [] => .ok []
  | v :: r =>
      ebind (coerceBakMapsItem v) (fun b =>
      ebind (coerceBakMapsList r) (fun t => .ok (b :: t)))

/-- Coercion of the optional `bak_maps` list field. -/
def coerceOptListBakMaps : Option JValue → Except String (Option (List MultiMapsListMapInfoBakMaps))
  | none => .ok none
  | some .jNull => .ok none
  | some (.jList l) => ebind (coerceBakMapsList l) (fun t => .ok (some t))
  | some _ => .error ("value is not a valid list")

/-- pydantic field validation for a nested `MultiMapsListMapInfo`
mapping (the two required fields fail when missing). -/
def mapInfoOfMap (m : List (String × JValue)) : Except String MultiMapsListMapInfo :=
  ebind (coerceReqInt (getVal m ("mapFlag"))) (fun mapFlag =>
  ebind (coerceReqStr (getVal m ("name"))) (fun name =>
  ebind (coerceOptAny (getVal m ("add_time"))) (fun add_time =>
  ebind (coerceOptAny (getVal m ("length"))) (fun length =>
  ebind (coerceOptListBakMaps (getVal m ("bak_maps"))) (fun bak_maps =>
  (.ok (MultiMapsListMapInfo.mk mapFlag name add_time length bak_maps)))))))

/-- Coercion of one element of `list[MultiMapsListMapInfo]`. -/
def coerceMapInfoItem : JValue → Except String MultiMapsListMapInfo
  | .jObj kvs => mapInfoOfMap kvs
  | _ => .error ("value is not a valid mapping")

/-- Element-wise coercion of `list[MultiMapsListMapInfo]`. -/
def coerceMapInfoList : List JValue → Except String (List MultiMapsListMapInfo)
  | [] => .ok []
  | v :: r =>
      ebind (coerceMapInfoItem v) (fun i =>
      ebind (coerceMapInfoList r) (fun t => .ok (i :: t)))

/-- Coercion of the optional `map_info` list field. -/
def coerceOptListMapInfo : Option JValue → Except String (Option (List MultiMapsListMapInfo))
  | none => .ok none
  | some .jNull => .ok none
  | some (.jList l) => ebind (coerceMapInfoList l) (fun t => .ok (some t))
  | some _ => .error ("value is not a valid list")

/-- pydantic field validation for `MultiMapsList` over a key-normalised
mapping. -/
def multiMapsListOfMap (m : List (String × JValue)) : Except String MultiMapsList :=
  ebind (coerceOptInt (getVal m ("max_multi_map"))) (fun max_multi_map =>
  ebind (coerceOptInt (getVal m ("max_bak_map"))) (fun max_bak_map =>
  ebind (coerceOptInt (getVal m ("multi_map_count"))) (fun multi_map_count =>
  ebind (coerceOptListMapInfo (getVal m ("map_info"))) (fun map_info =>
  (.ok (MultiMapsList.mk max_multi_map max_bak_map multi_map_count map_info))))))

/-- The `MultiMapsList.from_dict`: key normalisation uses this schema's
`_ignore_keys = ["mapFlag"]` at every nesting depth; a non-mapping
returns the default-constructed object. -/
def multiMapsListFromDict (v : JValue) : Except PyErr MultiMapsList :=
  match v with
  | .jObj kvs =>
      match multiMapsListOfMap (decamObj multiMapsIgnoreKeys kvs) with
      | .ok x => .ok x
      | .error m =>
          .error (.roborockError ("Error validating data with pydantic.")
            (some (.validationError m)))
  | _ => .ok {}

/-- An `Any`-typed field value that survives the decode/encode cycle: it
is unchanged by `decamelize_obj` (it contains no mapping with
transcoding-sensitive keys) and is not an explicit null (Python
represents an absent `Any | None` field as `None`, never as a present
null). -/
def AnyRT (ign : List String) (v : Option JValue) : Prop :=
  ∀ w, v = some w → decamVal ign w = w ∧ w ≠ JValue.jNull

theorem coerceOptAny_decam (ign : List String) (v : Option JValue) (h : AnyRT ign v) :
    coerceOptAny (v.map (decamVal ign)) = .ok v := by
  cases v with
  | none => rfl
  | some w =>
      obtain ⟨hw, hnn⟩ := h w rfl
      simp only [Option.map_some']
      rw [hw]
      cases w with
      | jNull => exact absurd rfl hnn
      | jBool b => rfl
      | jInt n => rfl
      | jRat q => rfl
      | jStr s => rfl
      | jList l => rfl
      | jObj l => rfl

theorem coerceReqInt_decamInt (ign : List String) (n : Int) :
    coerceReqInt ((some (JValue.jInt n)).map (decamVal ign)) = .ok n := by
  simp [Option.map_some', decamVal_scalar_int, coerceReqInt]

theorem coerceReqStr_decamStr (ign : List String) (s : String) :
    coerceReqStr ((some (JValue.jStr s)).map (decamVal ign)) = .ok s := by
  simp [Option.map_some', decamVal_scalar_str, coerceReqStr]

/-- The decamelized dump segments of a nested
`MultiMapsListMapInfoBakMaps`, with literal keys. -/
def bakMapsDecamSegs (b : MultiMapsListMapInfoBakMaps) : List (String × Option JValue) :=
  [("mapflag", b.mapflag.map (decamVal multiMapsIgnoreKeys)),
   ("add_time", b.add_time.map (decamVal multiMapsIgnoreKeys))]

theorem bakMapsDecamSegs_eq (b : MultiMapsListMapInfoBakMaps) :
    decamSegs multiMapsIgnoreKeys (bakMapsSegs b) = bakMapsDecamSegs b := rfl

theorem bakMapsDecamSegs_keys (b : MultiMapsListMapInfoBakMaps) :
    ((bakMapsDecamSegs b).map Prod.fst).Nodup := by
  have h : (bakMapsDecamSegs b).map Prod.fst = ["mapflag", "add_time"] := rfl
  rw [h]
  decide

theorem bakMapsLookup_mapflag (b : MultiMapsListMapInfoBakMaps) :
    lookupSeg (bakMapsDecamSegs b) ("mapflag")
      = b.mapflag.map (decamVal multiMapsIgnoreKeys) := rfl

theorem bakMapsLookup_add_time (b : MultiMapsListMapInfoBakMaps) :
    lookupSeg (bakMapsDecamSegs b) ("add_time")
      = b.add_time.map (decamVal multiMapsIgnoreKeys) := rfl

theorem bakMapsRoundtrip (b : MultiMapsListMapInfoBakMaps)
    (h1 : AnyRT multiMapsIgnoreKeys b.mapflag)
    (h2 : AnyRT multiMapsIgnoreKeys b.add_time) :
    bakMapsOfMap (decamObj multiMapsIgnoreKeys (bakMapsDump b)) = .ok b := by
  have hm : decamObj multiMapsIgnoreKeys (bakMapsDump b)
      = segsToDict (bakMapsDecamSegs b) := by
    rw [bakMapsDump, decamObj_segsToDict, bakMapsDecamSegs_eq]
  have hg : ∀ k, getVal (segsToDict (bakMapsDecamSegs b)) k
      = lookupSeg (bakMapsDecamSegs b) k :=
    fun k => getVal_segsToDict _ k (bakMapsDecamSegs_keys b)
  rw [hm]
  simp only [bakMapsOfMap, hg, bakMapsLookup_mapflag, bakMapsLookup_add_time,
    coerceOptAny_decam _ _ h1, coerceOptAny_decam _ _ h2, ebind_ok]

theorem coerceBakMapsList_roundtrip (l : List MultiMapsListMapInfoBakMaps)
    (h : ∀ b ∈ l, AnyRT multiMapsIgnoreKeys b.mapflag ∧ AnyRT multiMapsIgnoreKeys b.add_time) :
    coerceBakMapsList (decamList multiMapsIgnoreKeys (l.map (fun b => .jObj (bakMapsDump b))))
      = .ok l := by
  induction l with
  | nil => rfl
  | cons b r ih =>
      obtain ⟨hb1, hb2⟩ := h b (by simp)
      have hr := ih (fun q hq => h q (by simp [hq]))
      simp only [List.map_cons, decamList, decamVal, coerceBakMapsList, coerceBakMapsItem,
        bakMapsRoundtrip b hb1 hb2, hr, ebind_ok]

theorem coerceOptListBakMaps_decam (v : Option (List MultiMapsListMapInfoBakMaps))
    (h : ∀ l, v = some l →
      ∀ b ∈ l, AnyRT multiMapsIgnoreKeys b.mapflag ∧ AnyRT multiMapsIgnoreKeys b.add_time) :
    coerceOptListBakMaps
      ((v.map (fun l => JValue.jList (l.map (fun b => .jObj (bakMapsDump b))))).map
        (decamVal multiMapsIgnoreKeys)) = .ok v := by
  cases v with
  | none => rfl
  | some l =>
      simp only [Option.map_some', decamVal, coerceOptListBakMaps,
        coerceBakMapsList_roundtrip l (h l rfl), ebind_ok]

/-- The decamelized dump segments of a nested `MultiMapsListMapInfo`,
with literal keys; `mapFlag` is on the ignore list and keeps its
wire-cased name. -/
def mapInfoDecamSegs (i : MultiMapsListMapInfo) : List (String × Option JValue) :=
  [("mapFlag", (some (JValue.jInt i.mapFlag)).map (decamVal multiMapsIgnoreKeys)),
   ("name", (some (JValue.jStr i.name)).map (decamVal multiMapsIgnoreKeys)),
   ("add_time", i.add_time.map (decamVal multiMapsIgnoreKeys)),
   ("length", i.length.map (decamVal multiMapsIgnoreKeys)),
   ("bak_maps",
     (i.bak_maps.map (fun l => JValue.jList (l.map (fun b => .jObj (bakMapsDump b))))).map
       (decamVal multiMapsIgnoreKeys))]

theorem mapInfoDecamSegs_eq (i : MultiMapsListMapInfo) :
    decamSegs multiMapsIgnoreKeys (mapInfoSegs i) = mapInfoDecamSegs i := rfl

theorem mapInfoDecamSegs_keys (i : MultiMapsListMapInfo) :
    ((mapInfoDecamSegs i).map Prod.fst).Nodup := by
  have h : (mapInfoDecamSegs i).map Prod.fst
      = ["mapFlag", "name", "add_time", "length", "bak_maps"] := rfl
  rw [h]
  decide

theorem mapInfoLookup_mapFlag (i : MultiMapsListMapInfo) :
    lookupSeg (mapInfoDecamSegs i) ("mapFlag")
      = (some (JValue.jInt i.mapFlag)).map (decamVal multiMapsIgnoreKeys) := rfl

theorem mapInfoLookup_name (i : MultiMapsListMapInfo) :
    lookupSeg (mapInfoDecamSegs i) ("name")
      = (some (JValue.jStr i.name)).map (decamVal multiMapsIgnoreKeys) := rfl

theorem mapInfoLookup_add_time (i : MultiMapsListMapInfo) :
    lookupSeg (mapInfoDecamSegs i) ("add_time")
      = i.add_time.map (decamVal multiMapsIgnoreKeys) := rfl

theorem mapInfoLookup_length (i : MultiMapsListMapInfo) :
    lookupSeg (mapInfoDecamSegs i) ("length")
      = i.length.map (decamVal multiMapsIgnoreKeys) := rfl

theorem mapInfoLookup_bak_maps (i : MultiMapsListMapInfo) :
    lookupSeg (mapInfoDecamSegs i) ("bak_maps")
      = (i.bak_maps.map (fun l => JValue.jList (l.map (fun b => .jObj (bakMapsDump b))))).map
          (decamVal multiMapsIgnoreKeys) := rfl

/-- The `Any`-valued content of a `MultiMapsListMapInfo` survives the
decode/encode cycle. -/
def MapInfoRT (i : MultiMapsListMapInfo) : Prop :=
  AnyRT multiMapsIgnoreKeys i.add_time ∧ AnyRT multiMapsIgnoreKeys i.length ∧
  ∀ l, i.bak_maps = some l →
    ∀ b ∈ l, AnyRT multiMapsIgnoreKeys b.mapflag ∧ AnyRT multiMapsIgnoreKeys b.add_time

theorem mapInfoRoundtrip (i : MultiMapsListMapInfo) (h : MapInfoRT i) :
    mapInfoOfMap (decamObj multiMapsIgnoreKeys (mapInfoDump i)) = .ok i := by
  obtain ⟨h1, h2, h3⟩ := h
  have hm : decamObj multiMapsIgnoreKeys (mapInfoDump i)
      = segsToDict (mapInfoDecamSegs i) := by
    rw [mapInfoDump, decamObj_segsToDict, mapInfoDecamSegs_eq]
  have hg : ∀ k, getVal (segsToDict (mapInfoDecamSegs i)) k
      = lookupSeg (mapInfoDecamSegs i) k :=
    fun k => getVal_segsToDict _ k (mapInfoDecamSegs_keys i)
  rw [hm]
  simp only [mapInfoOfMap, hg, mapInfoLookup_mapFlag, mapInfoLookup_name,
    mapInfoLookup_add_time, mapInfoLookup_length, mapInfoLookup_bak_maps,
    coerceReqInt_decamInt, coerceReqStr_decamStr,
    coerceOptAny_decam _ _ h1, coerceOptAny_decam _ _ h2,
    coerceOptListBakMaps_decam _ h3, ebind_ok]

theorem coerceMapInfoList_roundtrip (l : List MultiMapsListMapInfo)
    (h : ∀ i ∈ l, MapInfoRT i) :
    coerceMapInfoList (decamList multiMapsIgnoreKeys (l.map (fun i => .jObj (mapInfoDump i))))
      = .ok l := by
  induction l with
  | nil => rfl
  | cons i r ih =>
      have hi := h i (by simp)
      have hr := ih (fun q hq => h q (by simp [hq]))
      simp only [List.map_cons, decamList, decamVal, coerceMapInfoList, coerceMapInfoItem,
        mapInfoRoundtrip i hi, hr, ebind_ok]

theorem coerceOptListMapInfo_decam (v : Option (List MultiMapsListMapInfo))
    (h : ∀ l, v = some l → ∀ i ∈ l, MapInfoRT i) :
    coerceOptListMapInfo
      ((v.map (fun l => JValue.jList (l.map (fun i => .jObj (mapInfoDump i))))).map
        (decamVal multiMapsIgnoreKeys)) = .ok v := by
  cases v with
  | none => rfl
  | some l =>
      simp only [Option.map_some', decamVal, coerceOptListMapInfo,
        coerceMapInfoList_roundtrip l (h l rfl), ebind_ok]

/-- The decamelized dump segments of a `MultiMapsList`, with literal
keys. -/
def multiMapsDecamSegs (x : MultiMapsList) : List (String × Option JValue) :=
  [("max_multi_map", (x.max_multi_map.map JValue.jInt).map (decamVal multiMapsIgnoreKeys)),
   ("max_bak_map", (x.max_bak_map.map JValue.jInt).map (decamVal multiMapsIgnoreKeys)),
   ("multi_map_count", (x.multi_map_count.map JValue.jInt).map (decamVal multiMapsIgnoreKeys)),
   ("map_info",
     (x.map_info.map (fun l => JValue.jList (l.map (fun i => .jObj (mapInfoDump i))))).map
       (decamVal multiMapsIgnoreKeys))]

theorem multiMapsDecamSegs_eq (x : MultiMapsList) :
    decamSegs multiMapsIgnoreKeys (multiMapsListSegs x) = multiMapsDecamSegs x := rfl

theorem multiMapsDecamSegs_keys (x : MultiMapsList) :
    ((multiMapsDecamSegs x).map Prod.fst).Nodup := by
  have h : (multiMapsDecamSegs x).map Prod.fst
      = ["max_multi_map", "max_bak_map", "multi_map_count", "map_info"] := rfl
  rw [h]
  decide

theorem multiMapsLookup_max_multi_map (x : MultiMapsList) :
    lookupSeg (multiMapsDecamSegs x) ("max_multi_map")
      = (x.max_multi_map.map JValue.jInt).map (decamVal multiMapsIgnoreKeys) := rfl

theorem multiMapsLookup_max_bak_map (x : MultiMapsList) :
    lookupSeg (multiMapsDecamSegs x) ("max_bak_map")
      = (x.max_bak_map.map JValue.jInt).map (decamVal multiMapsIgnoreKeys) := rfl

theorem multiMapsLookup_multi_map_count (x : MultiMapsList) :
    lookupSeg (multiMapsDecamSegs x) ("multi_map_count")
      = (x.multi_map_count.map JValue.jInt).map (decamVal multiMapsIgnoreKeys) := rfl

theorem multiMapsLookup_map_info (x : MultiMapsList) :
    lookupSeg (multiMapsDecamSegs x) ("map_info")
      = (x.map_info.map (fun l => JValue.jList (l.map (fun i => .jObj (mapInfoDump i))))).map
          (decamVal multiMapsIgnoreKeys) := rfl

/-- The `Any`-valued content of a `MultiMapsList` survives the
decode/encode cycle. -/
def MultiMapsRT (x : MultiMapsList) : Prop :=
  ∀ l, x.map_info = some l → ∀ i ∈ l, MapInfoRT i

theorem multiMapsRoundtrip (x : MultiMapsList) (h : MultiMapsRT x) :
    multiMapsListFromDict (.jObj (multiMapsListAsDict x)) = .ok x := by
  have hm : decamObj multiMapsIgnoreKeys (multiMapsListAsDict x)
      = segsToDict (multiMapsDecamSegs x) := by
    rw [multiMapsListAsDict, decamObj_segsToDict, multiMapsDecamSegs_eq]
  have hof : multiMapsListOfMap (segsToDict (multiMapsDecamSegs x)) = .ok x := by
    have hg : ∀ k, getVal (segsToDict (multiMapsDecamSegs x)) k
        = lookupSeg (multiMapsDecamSegs x) k :=
      fun k => getVal_segsToDict _ k (multiMapsDecamSegs_keys x)
    simp only [multiMapsListOfMap, hg, multiMapsLookup_max_multi_map,
      multiMapsLookup_max_bak_map, multiMapsLookup_multi_map_count,
      multiMapsLookup_map_info, coerceOptInt_decamMap,
      coerceOptListMapInfo_decam _ h, ebind_ok]
  simp only [multiMapsListFromDict, hm, hof]

/-- Does the payload value parse as a JSON mapping (a Python `dict`)? -/
def jIsObj : JValue → Bool
  | .jObj _ => true
  | _ => false

/-- A `MultiMapsListMapInfo` whose `Any`-typed `add_time` holds a
mapping with a camel-cased key. -/
def mapInfoCamelAny : MultiMapsListMapInfo :=
  { mapFlag := 1, name := ("m"), add_time := some (.jObj [("aB", .jInt 1)]) }

/-- The same record after its `Any` value's key has been decamelized. -/
def mapInfoCamelAnyDec : MultiMapsListMapInfo :=
  { mapFlag := 1, name := ("m"), add_time := some (.jObj [("a_b", .jInt 1)]) }

/-- A `MultiMapsList` holding `mapInfoCamelAny`. -/
def multiMapsCamelAny : MultiMapsList := { map_info := some [mapInfoCamelAny] }

/-- The decode of the encode of `multiMapsCamelAny`. -/
def multiMapsCamelAnyDec : MultiMapsList := { map_info := some [mapInfoCamelAnyDec] }

/-- C3, counterexample: a constructible `MultiMapsListMapInfo` whose
`Any`-typed `add_time` holds a mapping with a camel-cased key does not
survive `decode(encode(x))`: `decamelize_obj` rewrites the key `"aB"`
inside the `Any` value to `"a_b"` on the way back in, so the decoded
object differs from `x` on a non-null field even though no exempted key
is involved. -/
theorem roundtrip_any_field_refuted :
    multiMapsListFromDict (.jObj (multiMapsListAsDict multiMapsCamelAny))
      = .ok multiMapsCamelAnyDec ∧
    mapInfoCamelAnyDec.add_time ≠ mapInfoCamelAny.add_time := by
  constructor
  · have e0 : camelize ("map_info") = "mapInfo" := by decide
    have e1 : decamelize ("mapInfo") = "map_info" := by decide
    have e2 : decamelize ("aB") = "a_b" := by decide
    have e3 : decamelize ("name") = "name" := by decide
    have e4 : decamelize ("add_time") = "add_time" := by decide
    simp [multiMapsCamelAny, multiMapsCamelAnyDec, mapInfoCamelAny, mapInfoCamelAnyDec,
      multiMapsListAsDict, multiMapsListSegs, mapInfoDump, mapInfoSegs,
      segsToDict, multiMapsListFromDict, decamObj, decamList, decamVal, transcodeKey,
      multiMapsIgnoreKeys, e0, e1, e2, e3, e4, multiMapsListOfMap, mapInfoOfMap,
      coerceOptInt, coerceOptListMapInfo, coerceMapInfoList, coerceMapInfoItem,
      coerceReqInt, coerceReqStr, coerceOptAny, coerceOptListBakMaps, getVal, ebind]
  · simp [mapInfoCamelAny, mapInfoCamelAnyDec]

/-- C3, amended: `decode(encode(x))` reproduces every field (nulls are
dropped by encode and re-defaulted to null by decode) for every
constructible domain object whose `Any`-typed field values are untouched
by key decamelization: unconditionally for `Consumable`, for every
constructible `Status` (post-init fixed point with registered enum
codes), and for every `MultiMapsList` whose `Any`-held mappings carry no
transcoding-sensitive keys — the counterexample shows the claim fails
without that last restriction. -/
theorem roundtrip_amended :
    (∀ c : Consumable, consumableFromDict (.jObj (consumableAsDict c)) = .ok c) ∧
    (∀ s : Status, ValidStatus s → statusFromDict (.jObj (statusAsDict s)) = .ok s) ∧
    (∀ x : MultiMapsList, MultiMapsRT x →
      multiMapsListFromDict (.jObj (multiMapsListAsDict x)) = .ok x) :=
  ⟨consumableRoundtrip, statusRoundtrip, multiMapsRoundtrip⟩

/-- Witness for `roundtrip_amended` at the default-constructed objects. -/
theorem roundtrip_amended_witness :
    consumableFromDict (.jObj (consumableAsDict {})) = .ok ({} : Consumable) ∧
    statusFromDict (.jObj (statusAsDict {})) = .ok ({} : Status) ∧
    multiMapsListFromDict (.jObj (multiMapsListAsDict {})) = .ok ({} : MultiMapsList) :=
  ⟨roundtrip_amended.1 {},
   roundtrip_amended.2.1 {}
     ⟨by decide, fun c hc => Option.noConfusion hc, fun c hc => Option.noConfusion hc,
      fun c hc => Option.noConfusion hc, fun c hc => Option.noConfusion hc,
      fun c hc => Option.noConfusion hc, fun c hc => Option.noConfusion hc,
      fun c hc => Option.noConfusion hc, fun c hc => Option.noConfusion hc⟩,
   roundtrip_amended.2.2 {} (fun l hl => Option.noConfusion hl)⟩

/-- C5, counterexample: a payload that supplies the derived field
`error_code_name` directly, with its source field `error_code` absent,
decodes to an object that keeps the supplied value: `model_post_init`
reassigns the name fields only when the source enum field is present, so
this derived field is independently settable, contradicting the claim
that supplied derived values are always overwritten by recomputation. -/
theorem derived_fields_overwrite_refuted :
    statusFromDict (.jObj [("errorCodeName", .jStr ("phantom"))])
      = .ok { error_code_name := some ("phantom") } ∧
    ({ error_code_name := some ("phantom") } : Status).error_code = none := by
  refine ⟨?_, rfl⟩
  have e1 : decamelize ("errorCodeName") = "error_code_name" := by decide
  have hdec : decamObj baseIgnoreKeys [("errorCodeName", .jStr ("phantom"))]
      = [("error_code_name", .jStr ("phantom"))] := by
    simp [decamObj, decamVal, transcodeKey, baseIgnoreKeys, e1]
  simp only [statusFromDict, hdec]
  rfl

/-- C5, amended: the unconditionally recomputed derived fields are
consistent by construction — every successfully decoded `Status` has
`square_meter_clean_area` equal to the recomputation from its
`clean_area` — but derived fields are not universally recomputed: the
counterexample shows `Status` name fields with an absent source keep a
supplied value, and `Consumable` never recomputes its time-left fields
(its `__post_init__` is not a pydantic hook), so a payload-supplied
`main_brush_time_left` is retained as-is. -/
theorem derived_fields_amended :
    (∀ (v : JValue) (s : Status), statusFromDict v = .ok s →
      s.square_meter_clean_area = s.clean_area.map roundArea) ∧
    (∀ n : Int, consumableFromDict (.jObj [("mainBrushTimeLeft", .jInt n)])
      = .ok { main_brush_time_left := some n }) := by
  constructor
  · have hpost : ∀ t : Status,
        (statusPostInit t).square_meter_clean_area
          = (statusPostInit t).clean_area.map roundArea := fun t => rfl
    intro v s h
    cases v with
    | jObj kvs =>
        cases hraw : statusRawOfMap (decamObj baseIgnoreKeys kvs) with
        | ok t =>
            simp only [statusFromDict, statusOfMap, hraw, Except.ok.injEq] at h
            rw [← h]
            exact hpost t
        | error e =>
            simp only [statusFromDict, statusOfMap, hraw] at h
            exact Except.noConfusion h
    | jNull =>
        simp only [statusFromDict, Except.ok.injEq] at h
        rw [← h]
        exact hpost {}
    | jBool b =>
        simp only [statusFromDict, Except.ok.injEq] at h
        rw [← h]
        exact hpost {}
    | jInt n =>
        simp only [statusFromDict, Except.ok.injEq] at h
        rw [← h]
        exact hpost {}
    | jRat q =>
        simp only [statusFromDict, Except.ok.injEq] at h
        rw [← h]
        exact hpost {}
    | jStr t =>
        simp only [statusFromDict, Except.ok.injEq] at h
        rw [← h]
        exact hpost {}
    | jList l =>
        simp only [statusFromDict, Except.ok.injEq] at h
        rw [← h]
        exact hpost {}
  · intro n
    have e1 : decamObj baseIgnoreKeys [("mainBrushTimeLeft", .jInt n)]
        = [("main_brush_time_left", .jInt n)] := by
      have e2 : decamelize ("mainBrushTimeLeft") = "main_brush_time_left" := by decide
      simp [decamObj, decamVal, transcodeKey, baseIgnoreKeys, e2]
    simp only [consumableFromDict, e1]
    rfl

/-- Witness for `derived_fields_amended`: the non-mapping fallback object
has a recomputed (null) square-meter area. -/
theorem derived_fields_amended_witness :
    (statusPostInit {}).square_meter_clean_area
      = (statusPostInit {}).clean_area.map roundArea :=
  derived_fields_amended.1 (.jInt 0) (statusPostInit {}) rfl

/-- The `statusRawOfMap` reads its mapping only through `getVal` at the
declared field names. -/
theorem statusRawOfMap_congr (m1 m2 : List (String × JValue))
    (h : ∀ dk, dk ∈ statusDomainKeys → getVal m1 dk = getVal m2 dk) :
    statusRawOfMap m1 = statusRawOfMap m2 := by
  simp only [statusRawOfMap]
  rw [h ("msg_ver") (by decide),
    h ("msg_seq") (by decide),
    h ("state") (by decide),
    h ("battery") (by decide),
    h ("clean_time") (by decide),
    h ("clean_area") (by decide),
    h ("square_meter_clean_area") (by decide),
    h ("error_code") (by decide),
    h ("map_present") (by decide),
    h ("in_cleaning") (by decide),
    h ("in_returning") (by decide),
    h ("in_fresh_state") (by decide),
    h ("lab_status") (by decide),
    h ("water_box_status") (by decide),
    h ("back_type") (by decide),
    h ("wash_phase") (by decide),
    h ("wash_ready") (by decide),
    h ("fan_power") (by decide),
    h ("dnd_enabled") (by decide),
    h ("map_status") (by decide),
    h ("is_locating") (by decide),
    h ("lock_status") (by decide),
    h ("water_box_mode") (by decide),
    h ("water_box_carriage_status") (by decide),
    h ("mop_forbidden_enable") (by decide),
    h ("camera_status") (by decide),
    h ("is_exploring") (by decide),
    h ("home_sec_status") (by decide),
    h ("home_sec_enable_password") (by decide),
    h ("adbumper_status") (by decide),
    h ("water_shortage_status") (by decide),
    h ("dock_type") (by decide),
    h ("dust_collection_status") (by decide),
    h ("auto_dust_collection") (by decide),
    h ("avoid_count") (by decide),
    h ("mop_mode") (by decide),
    h ("debug_mode") (by decide),
    h ("collision_avoid_status") (by decide),
    h ("switch_map_mode") (by decide),
    h ("dock_error_status") (by decide),
    h ("charge_status") (by decide),
    h ("unsave_map_reason") (by decide),
    h ("unsave_map_flag") (by decide),
    h ("wash_status") (by decide),
    h ("distance_off") (by decide),
    h ("in_warmup") (by decide),
    h ("dry_status") (by decide),
    h ("rdt") (by decide),
    h ("clean_percent") (by decide),
    h ("rss") (by decide),
    h ("dss") (by decide),
    h ("common_status") (by decide),
    h ("corner_clean_mode") (by decide),
    h ("error_code_name") (by decide),
    h ("state_name") (by decide),
    h ("water_box_mode_name") (by decide),
    h ("fan_power_options") (by decide),
    h ("fan_power_name") (by decide),
    h ("mop_mode_name") (by decide)]

/-- C6: decoding a `Status`-shaped payload whose `fanPower` entry is not
a registered code of the fan-power table raises a decode error wrapping
the underlying validation failure, rather than returning an object; the
enum tables themselves are modelled from the spec (spec-modelled:
`code_mappings` is outside `src/`). -/
theorem unregistered_enum_decode_fails (kvs : List (String × JValue)) (c : Int)
    (hfan : getVal (decamObj baseIgnoreKeys kvs) ("fan_power") = some (.jInt c))
    (hreg : (tableCodes fanPowerTable).contains c = false) :
    ∃ m, statusFromDict (.jObj kvs)
      = .error (.roborockError ("Error validating data with pydantic.")
          (some (.validationError m))) := by
  cases hraw : statusRawOfMap (decamObj baseIgnoreKeys kvs) with
  | ok t =>
      exfalso
      simp only [statusRawOfMap] at hraw
      obtain ⟨a1, h1, hraw⟩ := ebind_ok_dest hraw
      obtain ⟨a2, h2, hraw⟩ := ebind_ok_dest hraw
      obtain ⟨a3, h3, hraw⟩ := ebind_ok_dest hraw
      obtain ⟨a4, h4, hraw⟩ := ebind_ok_dest hraw
      obtain ⟨a5, h5, hraw⟩ := ebind_ok_dest hraw
      obtain ⟨a6, h6, hraw⟩ := ebind_ok_dest hraw
      obtain ⟨a7, h7, hraw⟩ := ebind_ok_dest hraw
      obtain ⟨a8, h8, hraw⟩ := ebind_ok_dest hraw
      obtain ⟨a9, h9, hraw⟩ := ebind_ok_dest hraw
      obtain ⟨a10, h10, hraw⟩ := ebind_ok_dest hraw
      obtain ⟨a11, h11, hraw⟩ := ebind_ok_dest hraw
      obtain ⟨a12, h12, hraw⟩ := ebind_ok_dest hraw
      obtain ⟨a13, h13, hraw⟩ := ebind_ok_dest hraw
      obtain ⟨a14, h14, hraw⟩ := ebind_ok_dest hraw
      obtain ⟨a15, h15, hraw⟩ := ebind_ok_dest hraw
      obtain ⟨a16, h16, hraw⟩ := ebind_ok_dest hraw
      obtain ⟨a17, h17, hraw⟩ := ebind_ok_dest hraw
      obtain ⟨a18, h18, hraw⟩ := ebind_ok_dest hraw
      rw [hfan] at h18
      have hmem : c ∉ tableCodes fanPowerTable := by
        simpa using hreg
      simp [coerceOptEnum, hmem] at h18
  | error e =>
      exact ⟨e, by simp only [statusFromDict, statusOfMap, hraw]⟩

/-- Witness for `unregistered_enum_decode_fails` at the payload
(in wire form) carrying the unregistered fan-power code 9999. -/
theorem unregistered_enum_decode_fails_witness :
    ∃ m, statusFromDict (.jObj [("fanPower", .jInt 9999)])
      = .error (.roborockError ("Error validating data with pydantic.")
          (some (.validationError m))) :=
  unregistered_enum_decode_fails [("fanPower", .jInt 9999)] 9999
    (by
      have e1 : decamelize ("fanPower") = "fan_power" := by decide
      simp [decamObj, decamVal, transcodeKey, baseIgnoreKeys, e1, getVal])
    (by decide)

/-- C9: decoding drops undeclared wire keys silently — a payload entry
whose decamelized key is not a declared `Status` field name never changes
the decode result — and a payload with every optional field missing
succeeds with the all-null default object. -/
theorem unknown_keys_dropped :
    (∀ (k : String) (v : JValue) (kvs : List (String × JValue)),
        decamelize k ∉ statusDomainKeys →
        statusFromDict (.jObj ((k, v) :: kvs)) = statusFromDict (.jObj kvs)) ∧
    statusFromDict (.jObj []) = .ok ({} : Status) := by
  constructor
  · intro k v kvs hk
    have hdec : decamObj baseIgnoreKeys ((k, v) :: kvs)
        = (decamelize k, decamVal baseIgnoreKeys v) :: decamObj baseIgnoreKeys kvs := by
      simp [decamObj, transcodeKey, baseIgnoreKeys]
    have hraw : statusRawOfMap
          ((decamelize k, decamVal baseIgnoreKeys v) :: decamObj baseIgnoreKeys kvs)
        = statusRawOfMap (decamObj baseIgnoreKeys kvs) :=
      statusRawOfMap_congr _ _
        (fun dk hdk =>
          getVal_cons_ne _ _ (fun he => hk (by rw [← he] at hdk; exact hdk)))
    simp only [statusFromDict, hdec, statusOfMap, hraw]
  · have hdec0 : decamObj baseIgnoreKeys ([] : List (String × JValue)) = [] := by
      simp [decamObj]
    simp only [statusFromDict, hdec0]
    rfl

/-- Witness for `unknown_keys_dropped` at the wire key `"unknownKey"`. -/
theorem unknown_keys_dropped_witness :
    statusFromDict (.jObj [("unknownKey", .jInt 1)]) = statusFromDict (.jObj []) :=
  unknown_keys_dropped.1 ("unknownKey") (.jInt 1) [] (by decide)

theorem find?_props {α : Type} (p : α → Bool) (l : List α) (a : α)
    (h : l.find? p = some a) : p a = true ∧ a ∈ l := by
  induction l with
  | nil => simp [List.find?] at h
  | cons x r ih =>
      by_cases hx : p x = true
      · rw [List.find?_cons_of_pos _ hx] at h
        injection h with h
        subst h
        exact ⟨hx, by simp⟩
      · rw [List.find?_cons_of_neg _ (by simp [hx])] at h
        obtain ⟨h1, h2⟩ := ih h
        exact ⟨h1, by simp [h2]⟩

/-- A concrete nested record used to exhibit the wire form of an encoded
`map_info` entry. -/
def mapInfoPlain : MultiMapsListMapInfo :=
  { mapFlag := 1, name := ("m"), add_time := some (.jInt 5) }

/-- C7, counterexample: encoding a `MultiMapsList` with one `map_info`
entry emits the nested mapping under the camelized top-level key
`"mapInfo"`, but the keys inside that nested mapping are the domain
field names — `"add_time"` is present and its wire form `"addTime"` is
absent — because `model_dump` flattens nested models before the
key-camelizing comprehension of `as_dict` runs, so nested keys are never
transcoded to wire convention. -/
theorem nested_wire_keys_refuted :
    getVal (multiMapsListAsDict { map_info := some [mapInfoPlain] }) ("mapInfo")
      = some (.jList [.jObj (mapInfoDump mapInfoPlain)]) ∧
    getVal (mapInfoDump mapInfoPlain) ("add_time") = some (.jInt 5) ∧
    getVal (mapInfoDump mapInfoPlain) ("addTime") = none := by
  refine ⟨?_, ?_, ?_⟩
  · have e0 : camelize ("map_info") = "mapInfo" := by decide
    simp [multiMapsListAsDict, multiMapsListSegs, segsToDict, getVal, e0]
  · simp [mapInfoDump, mapInfoSegs, mapInfoPlain, segsToDict, getVal]
  · simp [mapInfoDump, mapInfoSegs, mapInfoPlain, segsToDict, getVal]

/-- C7, amended: `as_dict` emits the top-level keys of the wire mapping
through the camelizing Name Transcoder (the exempted keys of this repo
are single-token names on which camelize is the identity), and converts
top-level enum members to their integer codes; but the keys of nested
encoded domain objects — including objects inside lists — are emitted as
the domain field names, untranscoded, because `model_dump` has already
flattened them before the key pass runs. -/
theorem encode_key_convention_amended :
    (∀ x : MultiMapsList, ∀ k ∈ (multiMapsListAsDict x).map Prod.fst,
      k ∈ [camelize ("max_multi_map"), camelize ("max_bak_map"),
        camelize ("multi_map_count"), camelize ("map_info")]) ∧
    (∀ i : MultiMapsListMapInfo, ∀ k ∈ (mapInfoDump i).map Prod.fst,
      k ∈ ["mapFlag", "name", "add_time", "length", "bak_maps"]) ∧
    (∀ s : Status, ∀ k ∈ (statusAsDict s).map Prod.fst,
      k ∈ statusDomainKeys.map camelize) := by
  refine ⟨?_, ?_, ?_⟩
  · intro x k hk
    have h := segsToDict_keys_sub (multiMapsListSegs x) k hk
    have hkeys : (multiMapsListSegs x).map Prod.fst
        = [camelize ("max_multi_map"), camelize ("max_bak_map"),
           camelize ("multi_map_count"), camelize ("map_info")] := rfl
    rw [hkeys] at h
    exact h
  · intro i k hk
    have h := segsToDict_keys_sub (mapInfoSegs i) k hk
    have hkeys : (mapInfoSegs i).map Prod.fst
        = ["mapFlag", "name", "add_time", "length", "bak_maps"] := rfl
    rw [hkeys] at h
    exact h
  · intro s k hk
    have h := segsToDict_keys_sub (statusSegs s) k hk
    have hkeys : (statusSegs s).map Prod.fst = statusDomainKeys.map camelize := rfl
    rw [hkeys] at h
    exact h

/-- Witness for `encode_key_convention_amended`: the nested key
`"mapFlag"` of a dumped `map_info` entry is among the domain field
names. -/
theorem encode_key_convention_amended_witness :
    ("mapFlag" : String) ∈ ["mapFlag", "name", "add_time", "length", "bak_maps"] :=
  encode_key_convention_amended.2.1 mapInfoPlain ("mapFlag") (by decide)

/-- C8, counterexample: for a schema with a required field, decoding a
non-mapping does not return a default object — `return cls()` itself
raises a `ValidationError` (uncaught, since it sits outside the wrapping
try block) because `NetworkInfo.ip` is required and has no default. -/
theorem non_mapping_fallback_refuted :
    networkInfoFromDict (.jInt 0) = .error (.validationError ("field required")) := rfl

/-- C8, amended: the tolerant non-mapping fallback returns the
default-constructed object only for schemas all of whose fields have
defaults (`Status` here); for a schema with a required field
(`NetworkInfo`), the fallback construction itself raises a validation
error instead of returning an object. -/
theorem non_mapping_fallback_amended :
    (∀ v : JValue, jIsObj v = false → statusFromDict v = .ok ({} : Status)) ∧
    (∀ v : JValue, jIsObj v = false →
      networkInfoFromDict v = .error (.validationError ("field required"))) := by
  have hpost : statusPostInit {} = ({} : Status) := by decide
  constructor
  · intro v hv
    cases v with
    | jObj kvs => simp [jIsObj] at hv
    | jNull => rw [show statusFromDict .jNull = .ok (statusPostInit {}) from rfl, hpost]
    | jBool b => rw [show statusFromDict (.jBool b) = .ok (statusPostInit {}) from rfl, hpost]
    | jInt n => rw [show statusFromDict (.jInt n) = .ok (statusPostInit {}) from rfl, hpost]
    | jRat q => rw [show statusFromDict (.jRat q) = .ok (statusPostInit {}) from rfl, hpost]
    | jStr t => rw [show statusFromDict (.jStr t) = .ok (statusPostInit {}) from rfl, hpost]
    | jList l => rw [show statusFromDict (.jList l) = .ok (statusPostInit {}) from rfl, hpost]
  · intro v hv
    cases v with
    | jObj kvs => simp [jIsObj] at hv
    | jNull => rfl
    | jBool b => rfl
    | jInt n => rfl
    | jRat q => rfl
    | jStr t => rfl
    | jList l => rfl

/-- Witness for `non_mapping_fallback_amended` at the non-mapping `5`. -/
theorem non_mapping_fallback_amended_witness :
    statusFromDict (.jInt 5) = .ok ({} : Status) ∧
    networkInfoFromDict (.jInt 5) = .error (.validationError ("field required")) :=
  ⟨non_mapping_fallback_amended.1 (.jInt 5) rfl,
   non_mapping_fallback_amended.2 (.jInt 5) rfl⟩

/-- C10: each symbolic-name getter raises exactly when its enum field is
unset — `get_fan_speed_code` for `fan_power`, `get_mop_intensity_code`
for `water_box_mode`, `get_mop_mode_code` for `mop_mode` — and when the
field is set it returns without raising for every queried name, yielding
`as_dict().get(name)` of the field's table: the registered integer code
for a registered name, and no value for an unregistered one (tables
spec-modelled: `code_mappings` is outside `src/`). -/
theorem enum_access_getters (s : Status) (q : String) :
    ((∃ e, s.getFanSpeedCode q = .error e) ↔ s.fan_power = none) ∧
    (s.fan_power ≠ none → s.getFanSpeedCode q = .ok (enumAsDictGet fanPowerTable q)) ∧
    ((∃ e, s.getMopIntensityCode q = .error e) ↔ s.water_box_mode = none) ∧
    (s.water_box_mode ≠ none →
      s.getMopIntensityCode q = .ok (enumAsDictGet mopIntensityTable q)) ∧
    ((∃ e, s.getMopModeCode q = .error e) ↔ s.mop_mode = none) ∧
    (s.mop_mode ≠ none → s.getMopModeCode q = .ok (enumAsDictGet mopModeTable q)) ∧
    (∀ p ∈ fanPowerTable, enumAsDictGet fanPowerTable p.1 = some p.2) ∧
    (∀ nm : String, nm ∉ enumKeys fanPowerTable → enumAsDictGet fanPowerTable nm = none) := by
  refine ⟨?_, ?_, ?_, ?_, ?_, ?_, by decide, ?_⟩
  · cases hf : s.fan_power <;> simp [Status.getFanSpeedCode, hf]
  · intro h
    cases hf : s.fan_power with
    | none => exact absurd hf h
    | some c => simp [Status.getFanSpeedCode, hf]
  · cases hf : s.water_box_mode <;> simp [Status.getMopIntensityCode, hf]
  · intro h
    cases hf : s.water_box_mode with
    | none => exact absurd hf h
    | some c => simp [Status.getMopIntensityCode, hf]
  · cases hf : s.mop_mode <;> simp [Status.getMopModeCode, hf]
  · intro h
    cases hf : s.mop_mode with
    | none => exact absurd hf h
    | some c => simp [Status.getMopModeCode, hf]
  · intro nm hnm
    simp only [enumAsDictGet]
    cases hfind : fanPowerTable.find? (fun p => p.1 == nm) with
    | none => rfl
    | some p =>
        exfalso
        apply hnm
        obtain ⟨hp, hmem⟩ := find?_props _ _ _ hfind
        have hpn : p.1 = nm := by simpa using hp
        rw [← hpn]
        exact List.mem_map_of_mem Prod.fst hmem

/-- Witness for `enum_access_getters`: with `fan_power` set, querying the
registered name returns its code; with `fan_power` unset, the getter
raises. -/
theorem enum_access_getters_witness :
    ({ fan_power := some 101 } : Status).getFanSpeedCode ("quiet") = .ok (some 101) ∧
    (∃ e, ({} : Status).getFanSpeedCode ("quiet") = .error e) := by
  constructor
  · have h := (enum_access_getters { fan_power := some 101 } ("quiet")).2.1 (by simp)
    rw [h]
    rfl
  · exact (enum_access_getters {} ("quiet")).1.mpr rfl
